import Mathlib

/-!
# Verification of the week08 VM-to-assembly translator

A shallow embedding of `src/week08/src/main.rs`: the line parser
(`VMCommand::new`), the code generators (`*2asm` functions), the per-unit
translation loop (`translate_vm`), the bootstrap emitter (`bootstrap`) and the
orchestration in `main`.

Machine integers: `u16` indices and the `u64` jump counter are modelled as
`Nat` (the counter only ever increases by one per command, so `u64` overflow
is unreachable for any input that fits in memory).  Rust string routines that
the source uses (`str::trim`, `str::split(" ")`, `str::find("//")`,
`str::parse::<u16>`) are modelled by explicit recursions over `List Char`
with the same semantics.  Fallible Rust functions returning
`Result<_, String>` become `Except String _`; Rust panics (out-of-bounds
indexing, `unwrap` on a failed parse) become the `panics` outcome.
-/

namespace VMTrans

/-! ## Character-level helpers (Rust `str` routines used by the source) -/

/-- Whitespace recognizer used by `str::trim` (ASCII subset). -/
def isWS (c : Char) : Bool := c = ' ' || c = '\t' || c = '\n' || c = '\r'

/-- Rust `str::trim`: drop leading and trailing whitespace. -/
def trimChars (l : List Char) : List Char :=
  ((l.dropWhile isWS).reverse.dropWhile isWS).reverse

/-- Rust `str::trim` on a `String`. -/
def strTrim (s : String) : String := (trimChars s.data).asString

/-- Rust `str::split(" ")`: split on every single space; consecutive spaces
produce empty fragments, and the result is always non-empty. -/
def splitSpace : List Char → List (List Char)
  | [] => [[]]
  | ' ' :: rest => [] :: splitSpace rest
  | c :: rest =>
    match splitSpace rest with
    | t :: ts => (c :: t) :: ts
    | [] => [[c]]

/-- `s.trim().split(" ").collect()` from `VMCommand::new`. -/
def tokenize (s : String) : List String :=
  (splitSpace (trimChars s.data)).map List.asString

/-- Value of a most-significant-first decimal digit list. -/
def digitsVal (l : List Char) : Nat :=
  l.foldl (fun a c => a * 10 + (c.toNat - 48)) 0

/-- Rust `str::parse::<u16>`: optional leading `+`, at least one digit, all
digits, value below `2^16`; `none` on failure. -/
def parseU16 (s : String) : Option Nat :=
  let l := match s.data with
    | '+' :: rest => rest
    | l => l
  if l.isEmpty then none
  else if l.all Char.isDigit then
    if digitsVal l < 65536 then some (digitsVal l) else none
  else none

/-- `&line[..line.find("//").unwrap_or(line.len())]`: the prefix of a line
before the first `//`. -/
def takeUntilComment : List Char → List Char
  | [] => []
  | '/' :: '/' :: _ => []
  | c :: rest => c :: takeUntilComment rest

/-! ## The `VMCommand` data model (enum `VMCommand` in the source) -/

inductive VMCommand where
  | CArithmetic (s : String) (n : Nat)
  | CPush (s : String) (n : Nat)
  | CPop (s : String) (n : Nat)
  | CLabel (s : String) (n : Nat)
  | CGoto (s : String) (n : Nat)
  | CIf (s : String) (n : Nat)
  | CFunction (s : String) (n : Nat)
  | CReturn (s : String) (n : Nat)
  | CCall (s : String) (n : Nat)
  deriving DecidableEq

/-- The outcome of running a fallible, possibly panicking piece of the
translator: `ok`, a returned error value, or a Rust panic. -/
inductive Outcome (α : Type) where
  | ok (a : α)
  | err (e : String)
  | panics
  deriving DecidableEq

def Outcome.bind {α β : Type} : Outcome α → (α → Outcome β) → Outcome β
  | .ok a, f => f a
  | .err e, _ => .err e
  | .panics, _ => .panics

instance : Monad Outcome where
  pure := .ok
  bind := Outcome.bind

/-- `Result<_, String>` lifted into the panic-aware outcome type (the `?`
operator in `translate_vm`). -/
def liftExc {α : Type} : Except String α → Outcome α
  | .ok a => .ok a
  | .error e => .err e

/-! ## Segment / operator lookup tables -/

/-- `get_mem_seg` from the source: indirect-addressed segments only. -/
def get_mem_seg (seg : String) : Except String String :=
  if seg = "local" then .ok "LCL"
  else if seg = "argument" then .ok "ARG"
  else if seg = "this" then .ok "THIS"
  else if seg = "that" then .ok "THAT"
  else .error ("unimplemented mem_seg: " ++ seg)

/-- `get_bi_op` from the source. -/
def get_bi_op (comm : String) : Except String String :=
  if comm = "add" then .ok "+"
  else if comm = "sub" then .ok "-"
  else if comm = "and" then .ok "&"
  else if comm = "or" then .ok "|"
  else .error ("unimplemented bi_op: " ++ comm)

/-- `get_si_op` from the source. -/
def get_si_op (comm : String) : Except String String :=
  if comm = "neg" then .ok "-"
  else if comm = "not" then .ok "!"
  else .error ("unimplemented si_op: " ++ comm)

/-- `get_cmp_op` from the source. -/
def get_cmp_op (comm : String) : Except String String :=
  if comm = "eq" then .ok "JEQ"
  else if comm = "gt" then .ok "JGT"
  else if comm = "lt" then .ok "JLT"
  else .error ("unimplemented cmp_op: " ++ comm)

/-! ## Code generators (the `*2asm` functions) -/

/-- The `asm_stk_push` fragment from `ccall2asm`. -/
def asm_stk_push : String := "@SP\nAM=M+1\nA=A-1\nM=D"

namespace VMCommand

/-- `VMCommand::ccall2asm`. -/
def ccall2asm (fname : String) (n_args : Nat) (jump_count : Nat) :
    Except String (Nat × String) :=
  let return_addr := fname ++ "$ret." ++ Nat.repr jump_count
  let ret_ :=
    "@" ++ return_addr ++ "\nD=A\n" ++ asm_stk_push ++ "\n" ++
    "@LCL\nD=M\n" ++ asm_stk_push ++ "\n" ++
    "@ARG\nD=M\n" ++ asm_stk_push ++ "\n" ++
    "@THIS\nD=M\n" ++ asm_stk_push ++ "\n" ++
    "@THAT\nD=M\n" ++ asm_stk_push ++ "\n" ++
    "@SP\nD=M\n@LCL\nM=D\n" ++
    "@5\nD=D-A\n@" ++ Nat.repr n_args ++ "\nD=D-A\n@ARG\nM=D\n" ++
    "@" ++ fname ++ "\n0;JMP\n" ++
    "(" ++ return_addr ++ ")"
  .ok (jump_count + 1, ret_)

/-- `VMCommand::creturn2asm`. -/
def creturn2asm : Except String String :=
  .ok ("@LCL\nD=M\n@R13\nM=D\n" ++
    "@5\nA=D-A\nD=M\n@R14\nM=D\n" ++
    "@SP\nAM=M-1\nD=M\n@ARG\nA=M\nM=D\n" ++
    "@ARG\nD=M\n@SP\nM=D+1\n" ++
    "@R13\nAM=M-1\nD=M\n@THAT\nM=D\n" ++
    "@R13\nAM=M-1\nD=M\n@THIS\nM=D\n" ++
    "@R13\nAM=M-1\nD=M\n@ARG\nM=D\n" ++
    "@R13\nAM=M-1\nD=M\n@LCL\nM=D\n" ++
    "@R14\nA=M\n0;JMP")

/-- `VMCommand::cfunction2asm`.  The source's third match arm (negative local
count) is unreachable for the non-negative `u16` representation. -/
def cfunction2asm (func_name : String) (n_vars : Nat) : Except String String :=
  if n_vars = 0 then .ok ("(" ++ func_name ++ ")")
  else
    .ok ("(" ++ func_name ++ ")\n" ++
      "@" ++ Nat.repr n_vars ++ "\n" ++
      "D=A\n" ++
      "(" ++ func_name ++ "_rep)\n" ++
      "@SP\n" ++
      "AM=M+1\n" ++
      "A=A-1\n" ++
      "M=0\n" ++
      "@" ++ func_name ++ "_rep\n" ++
      "D=D-1;JGT")

/-- `VMCommand::cgoto2asm`. -/
def cgoto2asm (label func_name : String) : Except String String :=
  .ok ("@" ++ func_name ++ "$" ++ label ++ "\n0;JMP")

/-- `VMCommand::cif2asm`. -/
def cif2asm (label func_name : String) : Except String String :=
  .ok ("@SP\nAM=M-1\nD=M\n@" ++ func_name ++ "$" ++ label ++ "\nD;JNE")

/-- `VMCommand::clabel2asm`. -/
def clabel2asm (label func_name : String) : Except String String :=
  .ok ("(" ++ func_name ++ "$" ++ label ++ ")")

/-- `VMCommand::cpush2asm`; the match arms appear in source order. -/
def cpush2asm (seg : String) (idx : Nat) (static_name : String) :
    Except String String := do
  let s ←
    if seg = "constant" then pure ("@" ++ Nat.repr idx ++ "\nD=A")
    else if seg = "pointer" ∧ idx = 0 then pure "@THIS\nD=M"
    else if seg = "pointer" ∧ idx = 1 then pure "@THAT\nD=M"
    else if seg = "temp" then
      pure ("@5\nD=A\n@" ++ Nat.repr idx ++ "\nA=D+A\nD=M")
    else if seg = "static" then
      pure ("@" ++ static_name ++ "." ++ Nat.repr idx ++ "\nD=M")
    else do
      let mem_seg ← get_mem_seg seg
      pure ("@" ++ mem_seg ++ "\nD=M\n@" ++ Nat.repr idx ++ "\nA=D+A\nD=M")
  return s ++ "\n@SP\nAM=M+1\nA=A-1\nM=D"

/-- `VMCommand::cpop2asm`; the match arms appear in source order. -/
def cpop2asm (seg : String) (idx : Nat) (static_name : String) :
    Except String String := do
  let s ←
    if seg = "pointer" ∧ idx = 0 then pure "@THIS\nD=A"
    else if seg = "pointer" ∧ idx = 1 then pure "@THAT\nD=A"
    else if seg = "temp" then
      pure ("@5\nD=A\n@" ++ Nat.repr idx ++ "\nD=D+A")
    else if seg = "static" then
      pure ("@" ++ static_name ++ "." ++ Nat.repr idx ++ "\nD=A")
    else do
      let mem_seg ← get_mem_seg seg
      pure ("@" ++ mem_seg ++ "\nD=M\n@" ++ Nat.repr idx ++ "\nD=D+A")
  return s ++ "\n@R15\nM=D\n@SP\nAM=M-1\nD=M\n@R15\nA=M\nM=D"

/-- `VMCommand::carithmetic2asm`. -/
def carithmetic2asm (comm : String) (jump_count : Nat) :
    Except String (Nat × String) :=
  if comm = "neg" ∨ comm = "not" then do
    let op ← get_si_op comm
    pure (jump_count, "@SP\nAM=M-1\nMD=" ++ op ++ "M\n@SP\nM=M+1")
  else if comm = "add" ∨ comm = "sub" ∨ comm = "and" ∨ comm = "or" then do
    let op ← get_bi_op comm
    pure (jump_count, "@SP\nAM=M-1\nD=M\nA=A-1\nMD=M" ++ op ++ "D")
  else if comm = "eq" ∨ comm = "gt" ∨ comm = "lt" then do
    let op ← get_cmp_op comm
    pure (jump_count + 1,
      "@R15\nM=-1\n@SP\nAM=M-1\nD=M\nA=A-1\nD=M-D\n" ++
      "@JMP_FALSE" ++ Nat.repr jump_count ++ "\nD;" ++ op ++ "\n" ++
      "@R15\nM=0\n(JMP_FALSE" ++ Nat.repr jump_count ++ ")\n" ++
      "@R15\nD=M\n@SP\nA=M-1\nM=D")
  else .error ("unimplemented arithmetic: " ++ comm)

/-- `VMCommand::to_asm`: dispatch one command, returning the new jump counter
and the emitted fragment. -/
def to_asm (c : VMCommand) (jump_count : Nat) (static_name curr_fname : String) :
    Except String (Nat × String) :=
  match c with
  | .CArithmetic seg _ => carithmetic2asm seg jump_count
  | .CPush seg idx => do pure (jump_count, ← cpush2asm seg idx static_name)
  | .CPop seg idx => do pure (jump_count, ← cpop2asm seg idx static_name)
  | .CLabel seg _ => do pure (jump_count, ← clabel2asm seg curr_fname)
  | .CGoto seg _ => do pure (jump_count, ← cgoto2asm seg curr_fname)
  | .CIf seg _ => do pure (jump_count, ← cif2asm seg curr_fname)
  | .CFunction fname n_args => do pure (jump_count, ← cfunction2asm fname n_args)
  | .CReturn _ _ => do pure (jump_count, ← creturn2asm)
  | .CCall fname n_args => ccall2asm fname n_args jump_count

end VMCommand

/-! ## The line parser (`VMCommand::new`) -/

/-- Rust `v[i]` on a vector of tokens: a panic when out of bounds. -/
def tokAt (v : List String) (i : Nat) : Outcome String :=
  match v.get? i with
  | some t => .ok t
  | none => .panics

/-- Rust `t.trim().parse::<u16>().unwrap()`: a panic when the parse fails. -/
def parseTok (t : String) : Outcome Nat :=
  match parseU16 (strTrim t) with
  | some n => .ok n
  | none => .panics

/-- The dispatch of `VMCommand::new` over the token vector, with the source's
match arms in order.  Tokens beyond the ones an arm indexes are ignored, as
in the source. -/
def VMCommand.newFromTokens (v : List String) : Outcome VMCommand :=
  Outcome.bind (tokAt v 0) fun t0 =>
  if t0 = "push" then
    Outcome.bind (tokAt v 1) fun t1 =>
    Outcome.bind (tokAt v 2) fun t2 =>
    Outcome.bind (parseTok t2) fun n =>
    .ok (.CPush (strTrim t1) n)
  else if t0 = "pop" then
    Outcome.bind (tokAt v 1) fun t1 =>
    Outcome.bind (tokAt v 2) fun t2 =>
    Outcome.bind (parseTok t2) fun n =>
    .ok (.CPop (strTrim t1) n)
  else if t0 = "sub" ∨ t0 = "add" ∨ t0 = "and" ∨ t0 = "or" ∨ t0 = "neg" ∨
      t0 = "not" ∨ t0 = "eq" ∨ t0 = "gt" ∨ t0 = "lt" then
    .ok (.CArithmetic t0 0)
  else if t0 = "label" then
    Outcome.bind (tokAt v 1) fun t1 => .ok (.CLabel (strTrim t1) 0)
  else if t0 = "goto" then
    Outcome.bind (tokAt v 1) fun t1 => .ok (.CGoto (strTrim t1) 0)
  else if t0 = "if-goto" then
    Outcome.bind (tokAt v 1) fun t1 => .ok (.CIf (strTrim t1) 0)
  else if t0 = "function" then
    Outcome.bind (tokAt v 1) fun t1 =>
    Outcome.bind (tokAt v 2) fun t2 =>
    Outcome.bind (parseTok t2) fun n =>
    .ok (.CFunction (strTrim t1) n)
  else if t0 = "return" then
    .ok (.CReturn (strTrim t0) 0)
  else if t0 = "call" then
    Outcome.bind (tokAt v 1) fun t1 =>
    Outcome.bind (tokAt v 2) fun t2 =>
    Outcome.bind (parseTok t2) fun n =>
    .ok (.CCall (strTrim t1) n)
  else .err ("unimplemented vm command type: " ++ t0)

/-- `VMCommand::new`: trim, split on single spaces, dispatch. -/
def VMCommand.new (s : String) : Outcome VMCommand :=
  VMCommand.newFromTokens (tokenize s)

/-! ## Per-unit translation (`translate_vm`) and orchestration (`main`) -/

/-- The update of `func_name` at the end of each loop iteration of
`translate_vm`: rebound on a `CFunction`, kept otherwise. -/
def nextFuncName (c : VMCommand) (fn : String) : String :=
  match c with
  | .CFunction fname _ => fname
  | _ => fn

/-- The line loop of `translate_vm`, with the mutable locals (`func_name`,
`jump_count`, `result_asm`) threaded explicitly. -/
def translateLoop (static_name : String) :
    List String → String → Nat → String → Outcome (String × Nat)
  | [], _, jc, acc => .ok (acc, jc)
  | line :: rest, fn, jc, acc =>
    let line_ := takeUntilComment line.data
    if line_.length > 0 then
      Outcome.bind (VMCommand.new line_.asString) fun vm =>
      Outcome.bind (liftExc (VMCommand.to_asm vm jc static_name fn)) fun r =>
      translateLoop static_name rest (nextFuncName vm fn) r.1 (acc ++ r.2 ++ "\n")
    else
      translateLoop static_name rest fn jc acc

/-- `translate_vm` on one source unit (its lines are the external input);
`func_name` starts at the program-wide default scope `"System"`. -/
def translate_vm (lines : List String) (static_name : String) (jump_count : Nat) :
    Outcome (String × Nat) :=
  translateLoop static_name lines "System" jump_count ""

/-- `bootstrap`: stack-pointer initialization followed by the fixed
`ccall2asm("Sys.init", 0, 0)` fragment (the source passes the literal `0` as
the counter there), and the incremented counter as the second component. -/
def bootstrap (jump_cnt : Nat) : String × Nat :=
  let stack_base_addr : Nat := 256
  let cmd := "@" ++ Nat.repr stack_base_addr ++ "\nD=A\n@SP\nM=D\n"
  let ccall_ := (match VMCommand.ccall2asm "Sys.init" 0 0 with
    | .ok r => r.2
    | .error _ => "") ++ "\n"
  (cmd ++ ccall_, jump_cnt + 1)

/-- One translatable source unit: its lines and its `static_name`
(the boundary contract resolved by `parse_args`). -/
structure SourceUnit where
  lines : List String
  static_name : String

/-- The unit loop of `main`: each unit is translated starting from the
counter the previous unit returned. -/
def runUnits : List SourceUnit → Nat → Outcome (String × Nat)
  | [], jc => .ok ("", jc)
  | u :: rest, jc =>
    Outcome.bind (translate_vm u.lines u.static_name jc) fun r =>
    Outcome.bind (runUnits rest r.2) fun r2 =>
    .ok (r.1 ++ r2.1, r2.2)

/-- The output `main` writes: when the input was a directory, the bootstrap
fragment for the current counter value (0) first — `main` discards the
counter `bootstrap` returns — then every unit's output, folded from
counter 0. -/
def mainOutput (units : List SourceUnit) (is_dir : Bool) : Outcome String :=
  let pre := if is_dir then (bootstrap 0).1 else ""
  Outcome.bind (runUnits units 0) fun r => .ok (pre ++ r.1)

/-! ## Target-machine semantics

The emitted text is a sequence of newline-separated Hack instructions drawn
from a fixed finite set.  `Instr` enumerates exactly the instruction lines
the generators produce; `renderInstr` maps each back to its literal text, so
that `render` of an instruction list reproduces the generated string
verbatim (proved below for the fragments the claims execute). -/

inductive Instr where
  | at_num (n : Nat)
  | at_sym (s : String)
  | lbl (s : String)
  | dEqA | dEqM | mEqD | mEqZero | mEqNegOne
  | aEqM | aEqAsub1 | aEqMsub1 | aEqDplusA | aEqDsubA
  | amEqMplus1 | amEqMsub1
  | mEqDplus1 | mEqMplus1
  | dEqDsubA | dEqDplusA | dEqMsubD
  | mdEqMplusD | mdEqMsubD | mdEqMandD | mdEqMorD | mdEqNegM | mdEqNotM
  | jmp | dJNE | dJEQ | dJGT | dJLT | dEqDsub1JGT
  deriving DecidableEq

/-- The literal text of one instruction line. -/
def renderInstr : Instr → String
  | .at_num n => "@" ++ Nat.repr n
  | .at_sym s => "@" ++ s
  | .lbl s => "(" ++ s ++ ")"
  | .dEqA => "D=A"
  | .dEqM => "D=M"
  | .mEqD => "M=D"
  | .mEqZero => "M=0"
  | .mEqNegOne => "M=-1"
  | .aEqM => "A=M"
  | .aEqAsub1 => "A=A-1"
  | .aEqMsub1 => "A=M-1"
  | .aEqDplusA => "A=D+A"
  | .aEqDsubA => "A=D-A"
  | .amEqMplus1 => "AM=M+1"
  | .amEqMsub1 => "AM=M-1"
  | .mEqDplus1 => "M=D+1"
  | .mEqMplus1 => "M=M+1"
  | .dEqDsubA => "D=D-A"
  | .dEqDplusA => "D=D+A"
  | .dEqMsubD => "D=M-D"
  | .mdEqMplusD => "MD=M+D"
  | .mdEqMsubD => "MD=M-D"
  | .mdEqMandD => "MD=M&D"
  | .mdEqMorD => "MD=M|D"
  | .mdEqNegM => "MD=-M"
  | .mdEqNotM => "MD=!M"
  | .jmp => "0;JMP"
  | .dJNE => "D;JNE"
  | .dJEQ => "D;JEQ"
  | .dJGT => "D;JGT"
  | .dJLT => "D;JLT"
  | .dEqDsub1JGT => "D=D-1;JGT"

/-- Newline-joined rendering of an instruction list (no trailing newline,
matching the generated fragments). -/
def render : List Instr → String
  | [] => ""
  | [i] => renderInstr i
  | i :: rest => renderInstr i ++ "\n" ++ render rest

/-- Hack machine state: the A and D registers and the word-addressable
memory.  Values are 16-bit words represented as `Nat` and wrapped modulo
`2^16` by the ALU operations. -/
structure Mach where
  regA : Nat
  regD : Nat
  mem : Nat → Nat

/-- Memory update. -/
def wr (m : Nat → Nat) (a v : Nat) : Nat → Nat :=
  fun x => if x = a then v else m x

/-- 16-bit wrapping addition. -/
def wAdd (a b : Nat) : Nat := (a + b) % 65536

/-- 16-bit two's-complement subtraction. -/
def wSub (a b : Nat) : Nat := (a % 65536 + (65536 - b % 65536)) % 65536

/-- 16-bit two's-complement negation. -/
def wNeg (a : Nat) : Nat := (65536 - a % 65536) % 65536

/-- 16-bit bitwise complement. -/
def wNot (a : Nat) : Nat := 65535 - a % 65536

/-- One instruction step.  A label line is a no-op; a jump instruction whose
condition holds reports the jump target (the current A register) as the
second component.  The `M` destination of a compute instruction addresses
memory through the value A held before the instruction. -/
def stepI (σ : String → Nat) (s : Mach) : Instr → Mach × Option Nat
  | .at_num n => ({ s with regA := n }, none)
  | .at_sym x => ({ s with regA := σ x }, none)
  | .lbl _ => (s, none)
  | .dEqA => ({ s with regD := s.regA }, none)
  | .dEqM => ({ s with regD := s.mem s.regA }, none)
  | .mEqD => ({ s with mem := wr s.mem s.regA s.regD }, none)
  | .mEqZero => ({ s with mem := wr s.mem s.regA 0 }, none)
  | .mEqNegOne => ({ s with mem := wr s.mem s.regA 65535 }, none)
  | .aEqM => ({ s with regA := s.mem s.regA }, none)
  | .aEqAsub1 => ({ s with regA := wSub s.regA 1 }, none)
  | .aEqMsub1 => ({ s with regA := wSub (s.mem s.regA) 1 }, none)
  | .aEqDplusA => ({ s with regA := wAdd s.regD s.regA }, none)
  | .aEqDsubA => ({ s with regA := wSub s.regD s.regA }, none)
  | .amEqMplus1 =>
    let v := wAdd (s.mem s.regA) 1
    ({ s with regA := v, mem := wr s.mem s.regA v }, none)
  | .amEqMsub1 =>
    let v := wSub (s.mem s.regA) 1
    ({ s with regA := v, mem := wr s.mem s.regA v }, none)
  | .mEqDplus1 => ({ s with mem := wr s.mem s.regA (wAdd s.regD 1) }, none)
  | .mEqMplus1 => ({ s with mem := wr s.mem s.regA (wAdd (s.mem s.regA) 1) }, none)
  | .dEqDsubA => ({ s with regD := wSub s.regD s.regA }, none)
  | .dEqDplusA => ({ s with regD := wAdd s.regD s.regA }, none)
  | .dEqMsubD => ({ s with regD := wSub (s.mem s.regA) s.regD }, none)
  | .mdEqMplusD =>
    let v := wAdd (s.mem s.regA) s.regD
    ({ s with regD := v, mem := wr s.mem s.regA v }, none)
  | .mdEqMsubD =>
    let v := wSub (s.mem s.regA) s.regD
    ({ s with regD := v, mem := wr s.mem s.regA v }, none)
  | .mdEqMandD =>
    let v := Nat.land (s.mem s.regA % 65536) (s.regD % 65536)
    ({ s with regD := v, mem := wr s.mem s.regA v }, none)
  | .mdEqMorD =>
    let v := Nat.lor (s.mem s.regA % 65536) (s.regD % 65536)
    ({ s with regD := v, mem := wr s.mem s.regA v }, none)
  | .mdEqNegM =>
    let v := wNeg (s.mem s.regA)
    ({ s with regD := v, mem := wr s.mem s.regA v }, none)
  | .mdEqNotM =>
    let v := wNot (s.mem s.regA)
    ({ s with regD := v, mem := wr s.mem s.regA v }, none)
  | .jmp => (s, some s.regA)
  | .dJNE => (s, if s.regD % 65536 ≠ 0 then some s.regA else none)
  | .dJEQ => (s, if s.regD % 65536 = 0 then some s.regA else none)
  | .dJGT =>
    (s, if 0 < s.regD % 65536 ∧ s.regD % 65536 < 32768 then some s.regA else none)
  | .dJLT => (s, if 32768 ≤ s.regD % 65536 then some s.regA else none)
  | .dEqDsub1JGT =>
    let v := wSub s.regD 1
    ({ s with regD := v }, if 0 < v ∧ v < 32768 then some s.regA else none)

/-- Straight-line execution of a fragment: run instructions in order until a
jump is taken (its target is reported) or the list ends. -/
def runStraight (σ : String → Nat) : List Instr → Mach → Mach × Option Nat
  | [], s => (s, none)
  | i :: rest, s =>
    match stepI σ s i with
    | (s2, none) => runStraight σ rest s2
    | (s2, some t) => (s2, some t)

/-! ## Instruction lists of the generated fragments -/

/-- `asm_stk_push` as instructions. -/
def pushDInstrs : List Instr := [.at_sym "SP", .amEqMplus1, .aEqAsub1, .mEqD]

/-- The `ccall2asm` fragment as instructions. -/
def ccallInstrs (fname : String) (n_args jc : Nat) : List Instr :=
  [.at_sym (fname ++ "$ret." ++ Nat.repr jc), .dEqA] ++ pushDInstrs ++
  [.at_sym "LCL", .dEqM] ++ pushDInstrs ++
  [.at_sym "ARG", .dEqM] ++ pushDInstrs ++
  [.at_sym "THIS", .dEqM] ++ pushDInstrs ++
  [.at_sym "THAT", .dEqM] ++ pushDInstrs ++
  [.at_sym "SP", .dEqM, .at_sym "LCL", .mEqD] ++
  [.at_num 5, .dEqDsubA, .at_num n_args, .dEqDsubA, .at_sym "ARG", .mEqD] ++
  [.at_sym fname, .jmp] ++
  [.lbl (fname ++ "$ret." ++ Nat.repr jc)]

/-- The `creturn2asm` fragment as instructions. -/
def creturnInstrs : List Instr :=
  [.at_sym "LCL", .dEqM, .at_sym "R13", .mEqD,
   .at_num 5, .aEqDsubA, .dEqM, .at_sym "R14", .mEqD,
   .at_sym "SP", .amEqMsub1, .dEqM, .at_sym "ARG", .aEqM, .mEqD,
   .at_sym "ARG", .dEqM, .at_sym "SP", .mEqDplus1,
   .at_sym "R13", .amEqMsub1, .dEqM, .at_sym "THAT", .mEqD,
   .at_sym "R13", .amEqMsub1, .dEqM, .at_sym "THIS", .mEqD,
   .at_sym "R13", .amEqMsub1, .dEqM, .at_sym "ARG", .mEqD,
   .at_sym "R13", .amEqMsub1, .dEqM, .at_sym "LCL", .mEqD,
   .at_sym "R14", .aEqM, .jmp]

/-- The comparison fragment of `carithmetic2asm` as instructions, for the
given conditional-jump instruction. -/
def cmpInstrs (opI : Instr) (jc : Nat) : List Instr :=
  [.at_sym "R15", .mEqNegOne, .at_sym "SP", .amEqMsub1, .dEqM, .aEqAsub1,
   .dEqMsubD,
   .at_sym ("JMP_FALSE" ++ Nat.repr jc), opI,
   .at_sym "R15", .mEqZero, .lbl ("JMP_FALSE" ++ Nat.repr jc),
   .at_sym "R15", .dEqM, .at_sym "SP", .aEqMsub1, .mEqD]

/-- The `cfunction2asm` fragment as instructions. -/
def cfunctionInstrs (func_name : String) (n_vars : Nat) : List Instr :=
  if n_vars = 0 then [.lbl func_name]
  else
    [.lbl func_name, .at_num n_vars, .dEqA, .lbl (func_name ++ "_rep"),
     .at_sym "SP", .amEqMplus1, .aEqAsub1, .mEqZero,
     .at_sym (func_name ++ "_rep"), .dEqDsub1JGT]

/-- The labels an instruction list defines. -/
def labelDefs (l : List Instr) : List String :=
  l.filterMap fun i =>
    match i with
    | .lbl s => some s
    | _ => none

/-! ## The fresh-label trace of one translation -/

/-- Whether an arithmetic mnemonic is a comparison. -/
def isCmp (op : String) : Bool := op = "eq" || op = "gt" || op = "lt"

/-- The jump-counter update of one command (proved below to agree with
`to_asm` whenever `to_asm` succeeds). -/
def ctrNext (c : VMCommand) (jc : Nat) : Nat :=
  match c with
  | .CArithmetic op _ => if isCmp op then jc + 1 else jc
  | .CCall _ _ => jc + 1
  | _ => jc

/-- The jump counter after a command sequence. -/
def ctrAfter : List VMCommand → Nat → Nat
  | [], jc => jc
  | c :: cs, jc => ctrAfter cs (ctrNext c jc)

/-- The conditional-jump label a single command emits, if any. -/
def cmdFreshJmp (c : VMCommand) (jc : Nat) : List String :=
  match c with
  | .CArithmetic op _ => if isCmp op then ["JMP_FALSE" ++ Nat.repr jc] else []
  | _ => []

/-- The return label a single command emits, if any. -/
def cmdFreshRet (c : VMCommand) (jc : Nat) : List String :=
  match c with
  | .CCall f _ => [f ++ "$ret." ++ Nat.repr jc]
  | _ => []

/-- All conditional-jump labels emitted by a command sequence starting at the
given counter. -/
def jmpLabels : List VMCommand → Nat → List String
  | [], _ => []
  | c :: cs, jc => cmdFreshJmp c jc ++ jmpLabels cs (ctrNext c jc)

/-- All return labels emitted by a command sequence starting at the given
counter. -/
def retLabels : List VMCommand → Nat → List String
  | [], _ => []
  | c :: cs, jc => cmdFreshRet c jc ++ retLabels cs (ctrNext c jc)

/-- The string of an `ok` outcome (used to state facts about the emitted
output on concrete inputs). -/
def outcomeStr : Outcome String → String
  | .ok s => s
  | _ => ""

/-- The counter of an `ok` translation outcome. -/
def outcomeCtr : Outcome (String × Nat) → Nat
  | .ok r => r.2
  | _ => 0

/-- Split a character list at every newline, to count emitted lines. -/
def splitOnNl : List Char → List (List Char)
  | [] => [[]]
  | '\n' :: rest => [] :: splitOnNl rest
  | c :: rest =>
    match splitOnNl rest with
    | t :: ts => (c :: t) :: ts
    | [] => [[c]]

/-- A concrete symbol-resolution table for witness instances: the fixed Hack
register symbols at their architecture addresses, every other symbol at an
arbitrary code address. -/
def sigma0 : String → Nat := fun x =>
  if x = "SP" then 0
  else if x = "LCL" then 1
  else if x = "ARG" then 2
  else if x = "THIS" then 3
  else if x = "THAT" then 4
  else if x = "R13" then 13
  else if x = "R14" then 14
  else if x = "R15" then 15
  else 1000

/-- A concrete machine state for the `Return` witness: stack pointer 40,
local base 30, argument base 20, every other cell `x + 200`. -/
def mach0 : Mach :=
  ⟨0, 0, fun x => if x = 0 then 40 else if x = 1 then 30
    else if x = 2 then 20 else x + 200⟩

/-- A concrete machine state for the `Call` witness: stack pointer 100,
every other cell `x + 300`. -/
def mach1 : Mach := ⟨0, 0, fun x => if x = 0 then 100 else x + 300⟩

/-- The most-significant-first decimal digit characters of a number
(the specification of core's fuelled `Nat.toDigits`). -/
def digitsList (n : Nat) : List Char :=
  if _h : n < 10 then [Nat.digitChar n]
  else digitsList (n / 10) ++ [Nat.digitChar (n % 10)]
decreasing_by exact Nat.div_lt_self (by omega) (by omega)

/-! ## Decimal-numeral lemmas: `Nat.repr` is injective and digit-only -/

theorem digitsList_lt {n : Nat} (h : n < 10) : digitsList n = [Nat.digitChar n] := by
  rw [digitsList]; exact dif_pos h

theorem digitsList_ge {n : Nat} (h : ¬ n < 10) :
    digitsList n = digitsList (n / 10) ++ [Nat.digitChar (n % 10)] := by
  rw [digitsList]; exact dif_neg h

theorem digitChar_toNat_sub (d : Nat) (h : d < 10) :
    (Nat.digitChar d).toNat - 48 = d := by
  interval_cases d <;> decide

theorem digitChar_isDigit (d : Nat) (h : d < 10) :
    (Nat.digitChar d).isDigit = true := by
  interval_cases d <;> decide

theorem toDigitsCore_eq :
    ∀ (fuel n : Nat) (ds : List Char), n < fuel →
      Nat.toDigitsCore 10 fuel n ds = digitsList n ++ ds := by
  intro fuel
  induction fuel with
  | zero => intro n ds h; omega
  | succ f ih =>
    intro n ds h
    rw [Nat.toDigitsCore]
    by_cases h10 : n / 10 = 0
    · have hn : n < 10 := by omega
      simp only [h10, if_pos rfl]
      rw [digitsList_lt hn, Nat.mod_eq_of_lt hn]
      simp
    · have hn : ¬ n < 10 := by
        intro hlt
        exact h10 (Nat.div_eq_of_lt hlt)
      simp only [if_neg h10]
      have hdiv : n / 10 < f := by
        have h1 : n / 10 < n := Nat.div_lt_self (by omega) (by omega)
        omega
      rw [ih (n / 10) _ hdiv, digitsList_ge hn]
      simp

theorem toDigits_eq (n : Nat) : Nat.toDigits 10 n = digitsList n := by
  rw [Nat.toDigits, toDigitsCore_eq (n + 1) n [] (by omega)]
  simp

theorem digitsVal_digitsList (n : Nat) : digitsVal (digitsList n) = n := by
  induction n using Nat.strong_induction_on with
  | _ n ih =>
    by_cases h : n < 10
    · rw [digitsList_lt h]
      unfold digitsVal
      simp only [List.foldl_cons, List.foldl_nil]
      rw [Nat.zero_mul, Nat.zero_add, digitChar_toNat_sub n h]
    · rw [digitsList_ge h]
      unfold digitsVal
      rw [List.foldl_concat]
      have ihv := ih (n / 10) (Nat.div_lt_self (by omega) (by omega))
      unfold digitsVal at ihv
      rw [ihv, digitChar_toNat_sub (n % 10) (Nat.mod_lt _ (by omega))]
      omega

theorem repr_inj {m n : Nat} (h : Nat.repr m = Nat.repr n) : m = n := by
  unfold Nat.repr at h
  rw [List.asString_inj] at h
  rw [toDigits_eq, toDigits_eq] at h
  have h2 := congrArg digitsVal h
  rwa [digitsVal_digitsList, digitsVal_digitsList] at h2

theorem digitsList_digits (n : Nat) : ∀ c ∈ digitsList n, c.isDigit = true := by
  induction n using Nat.strong_induction_on with
  | _ n ih =>
    by_cases h : n < 10
    · rw [digitsList_lt h]
      intro c hc
      simp at hc
      subst hc
      exact digitChar_isDigit n h
    · rw [digitsList_ge h]
      intro c hc
      rw [List.mem_append] at hc
      rcases hc with hc | hc
      · exact ih (n / 10) (Nat.div_lt_self (by omega) (by omega)) c hc
      · simp at hc
        subst hc
        exact digitChar_isDigit (n % 10) (Nat.mod_lt _ (by omega))

theorem repr_data_digits (n : Nat) : ∀ c ∈ (Nat.repr n).data, c.isDigit = true := by
  unfold Nat.repr
  rw [show ((Nat.toDigits 10 n).asString).data = Nat.toDigits 10 n from rfl,
    toDigits_eq]
  exact digitsList_digits n

set_option maxRecDepth 8000 in
theorem render_creturn : VMCommand.creturn2asm = .ok (render creturnInstrs) := rfl

set_option maxRecDepth 8000 in
theorem render_ccall (f : String) (n jc : Nat) :
    VMCommand.ccall2asm f n jc = .ok (jc + 1, render (ccallInstrs f n jc)) := by
  have h : render (ccallInstrs f n jc) =
      "@" ++ (f ++ "$ret." ++ Nat.repr jc) ++ "\nD=A\n" ++ asm_stk_push ++ "\n" ++
      "@LCL\nD=M\n" ++ asm_stk_push ++ "\n" ++
      "@ARG\nD=M\n" ++ asm_stk_push ++ "\n" ++
      "@THIS\nD=M\n" ++ asm_stk_push ++ "\n" ++
      "@THAT\nD=M\n" ++ asm_stk_push ++ "\n" ++
      "@SP\nD=M\n@LCL\nM=D\n" ++
      "@5\nD=D-A\n@" ++ Nat.repr n ++ "\nD=D-A\n@ARG\nM=D\n" ++
      "@" ++ f ++ "\n0;JMP\n" ++
      "(" ++ (f ++ "$ret." ++ Nat.repr jc) ++ ")" := by
    simp only [ccallInstrs, pushDInstrs, List.cons_append, List.nil_append]
    simp only [render, renderInstr, asm_stk_push]
    apply String.ext
    simp only [String.data_append, List.append_assoc, List.cons_append,
      List.nil_append, List.singleton_append]
    rfl
  rw [VMCommand.ccall2asm, h]

end VMTrans

namespace VMTrans

theorem jmpLabel_inj {i j : Nat}
    (h : "JMP_FALSE" ++ Nat.repr i = "JMP_FALSE" ++ Nat.repr j) : i = j := by
  have hd := congrArg String.data h
  simp only [String.data_append, List.cons_append, List.nil_append] at hd
  apply repr_inj (String.ext ?_)
  simpa using hd

theorem jmp_ne_ret (i j : Nat) (f : String) :
    "JMP_FALSE" ++ Nat.repr i ≠ f ++ "$ret." ++ Nat.repr j := by
  intro h
  have hmem : '$' ∈ ("JMP_FALSE" ++ Nat.repr i).data := by
    rw [h]
    show '$' ∈ ((f ++ "$ret.") ++ Nat.repr j).data
    rw [String.data_append, String.data_append]
    exact List.mem_append.mpr (Or.inl (List.mem_append.mpr (Or.inr (by decide))))
  rw [String.data_append] at hmem
  rcases List.mem_append.mp hmem with hm | hm
  · revert hm; decide
  · have hdig := repr_data_digits i _ hm
    simp at hdig

theorem ctrNext_ge (c : VMCommand) (jc : Nat) : jc ≤ ctrNext c jc := by
  cases c <;> simp only [ctrNext] <;> try omega
  split <;> omega

theorem ctrAfter_ge : ∀ (cs : List VMCommand) (jc : Nat), jc ≤ ctrAfter cs jc := by
  intro cs
  induction cs with
  | nil => intro jc; simp [ctrAfter]
  | cons c cs ih =>
    intro jc
    exact le_trans (ctrNext_ge c jc) (ih (ctrNext c jc))

theorem cmdFreshJmp_cases (c : VMCommand) (jc : Nat) :
    cmdFreshJmp c jc = [] ∨
      (cmdFreshJmp c jc = ["JMP_FALSE" ++ Nat.repr jc] ∧ ctrNext c jc = jc + 1) := by
  cases c
  case CArithmetic op k =>
    by_cases h : isCmp op
    · exact Or.inr ⟨by simp [cmdFreshJmp, h], by simp [ctrNext, h]⟩
    · exact Or.inl (by simp [cmdFreshJmp, h])
  all_goals exact Or.inl rfl

theorem cmdFreshRet_cases (c : VMCommand) (jc : Nat) :
    cmdFreshRet c jc = [] ∨
      (∃ f, cmdFreshRet c jc = [f ++ "$ret." ++ Nat.repr jc] ∧ ctrNext c jc = jc + 1) := by
  cases c
  case CCall f k => exact Or.inr ⟨f, rfl, rfl⟩
  all_goals exact Or.inl rfl

theorem jmpLabels_mem : ∀ (cs : List VMCommand) (jc : Nat) (l : String),
    l ∈ jmpLabels cs jc →
      ∃ i, jc ≤ i ∧ i < ctrAfter cs jc ∧ l = "JMP_FALSE" ++ Nat.repr i := by
  intro cs
  induction cs with
  | nil => intro jc l h; simp [jmpLabels] at h
  | cons c cs ih =>
    intro jc l h
    rw [jmpLabels, List.mem_append] at h
    rcases h with h | h
    · rcases cmdFreshJmp_cases c jc with hc | ⟨hc, hn⟩
      · rw [hc] at h; simp at h
      · rw [hc] at h
        simp at h
        subst h
        refine ⟨jc, le_refl _, ?_, rfl⟩
        have h2 := ctrAfter_ge cs (ctrNext c jc)
        rw [ctrAfter]
        omega
    · obtain ⟨i, h1, h2, h3⟩ := ih (ctrNext c jc) l h
      have := ctrNext_ge c jc
      exact ⟨i, by omega, by rw [ctrAfter]; exact h2, h3⟩

theorem retLabels_mem : ∀ (cs : List VMCommand) (jc : Nat) (l : String),
    l ∈ retLabels cs jc →
      ∃ i f, jc ≤ i ∧ i < ctrAfter cs jc ∧ l = f ++ "$ret." ++ Nat.repr i := by
  intro cs
  induction cs with
  | nil => intro jc l h; simp [retLabels] at h
  | cons c cs ih =>
    intro jc l h
    rw [retLabels, List.mem_append] at h
    rcases h with h | h
    · rcases cmdFreshRet_cases c jc with hc | ⟨f, hc, hn⟩
      · rw [hc] at h; simp at h
      · rw [hc] at h
        simp at h
        subst h
        refine ⟨jc, f, le_refl _, ?_, rfl⟩
        have h2 := ctrAfter_ge cs (ctrNext c jc)
        rw [ctrAfter]
        omega
    · obtain ⟨i, f, h1, h2, h3⟩ := ih (ctrNext c jc) l h
      have := ctrNext_ge c jc
      exact ⟨i, f, by omega, by rw [ctrAfter]; exact h2, h3⟩

theorem jmpLabels_pairwise : ∀ (cs : List VMCommand) (jc : Nat),
    (jmpLabels cs jc).Pairwise (· ≠ ·) := by
  intro cs
  induction cs with
  | nil => intro jc; simp [jmpLabels]
  | cons c cs ih =>
    intro jc
    rw [jmpLabels, List.pairwise_append]
    refine ⟨?_, ih _, ?_⟩
    · rcases cmdFreshJmp_cases c jc with hc | ⟨hc, _⟩ <;> simp [hc]
    · intro a ha b hb
      rcases cmdFreshJmp_cases c jc with hc | ⟨hc, hn⟩
      · rw [hc] at ha; simp at ha
      · rw [hc] at ha
        simp at ha
        subst ha
        obtain ⟨i, h1, _, h3⟩ := jmpLabels_mem cs (ctrNext c jc) b hb
        rw [hn] at h1
        subst h3
        intro hcontra
        have := jmpLabel_inj hcontra
        omega

theorem render_cmp_eq (jc : Nat) :
    VMCommand.carithmetic2asm "eq" jc = .ok (jc + 1, render (cmpInstrs .dJEQ jc)) := by
  have h : render (cmpInstrs .dJEQ jc) =
      "@R15\nM=-1\n@SP\nAM=M-1\nD=M\nA=A-1\nD=M-D\n" ++
      "@JMP_FALSE" ++ Nat.repr jc ++ "\nD;" ++ "JEQ" ++ "\n" ++
      "@R15\nM=0\n(JMP_FALSE" ++ Nat.repr jc ++ ")\n" ++
      "@R15\nD=M\n@SP\nA=M-1\nM=D" := by
    simp only [cmpInstrs, render, renderInstr, List.cons_append, List.nil_append]
    apply String.ext
    simp only [String.data_append, List.append_assoc, List.cons_append,
      List.nil_append]
  rw [h]
  rfl

theorem render_cmp_gt (jc : Nat) :
    VMCommand.carithmetic2asm "gt" jc = .ok (jc + 1, render (cmpInstrs .dJGT jc)) := by
  have h : render (cmpInstrs .dJGT jc) =
      "@R15\nM=-1\n@SP\nAM=M-1\nD=M\nA=A-1\nD=M-D\n" ++
      "@JMP_FALSE" ++ Nat.repr jc ++ "\nD;" ++ "JGT" ++ "\n" ++
      "@R15\nM=0\n(JMP_FALSE" ++ Nat.repr jc ++ ")\n" ++
      "@R15\nD=M\n@SP\nA=M-1\nM=D" := by
    simp only [cmpInstrs, render, renderInstr, List.cons_append, List.nil_append]
    apply String.ext
    simp only [String.data_append, List.append_assoc, List.cons_append,
      List.nil_append]
  rw [h]
  rfl

theorem render_cmp_lt (jc : Nat) :
    VMCommand.carithmetic2asm "lt" jc = .ok (jc + 1, render (cmpInstrs .dJLT jc)) := by
  have h : render (cmpInstrs .dJLT jc) =
      "@R15\nM=-1\n@SP\nAM=M-1\nD=M\nA=A-1\nD=M-D\n" ++
      "@JMP_FALSE" ++ Nat.repr jc ++ "\nD;" ++ "JLT" ++ "\n" ++
      "@R15\nM=0\n(JMP_FALSE" ++ Nat.repr jc ++ ")\n" ++
      "@R15\nD=M\n@SP\nA=M-1\nM=D" := by
    simp only [cmpInstrs, render, renderInstr, List.cons_append, List.nil_append]
    apply String.ext
    simp only [String.data_append, List.append_assoc, List.cons_append,
      List.nil_append]
  rw [h]
  rfl

theorem render_cfunction (f : String) (n : Nat) :
    VMCommand.cfunction2asm f n = .ok (render (cfunctionInstrs f n)) := by
  by_cases h : n = 0
  · subst h
    rfl
  · rw [VMCommand.cfunction2asm, if_neg h, cfunctionInstrs, if_neg h]
    have h2 : render
        [Instr.lbl f, .at_num n, .dEqA, .lbl (f ++ "_rep"),
         .at_sym "SP", .amEqMplus1, .aEqAsub1, .mEqZero,
         .at_sym (f ++ "_rep"), .dEqDsub1JGT] =
        "(" ++ f ++ ")\n" ++ "@" ++ Nat.repr n ++ "\n" ++ "D=A\n" ++
        "(" ++ f ++ "_rep)\n" ++ "@SP\n" ++ "AM=M+1\n" ++ "A=A-1\n" ++
        "M=0\n" ++ "@" ++ f ++ "_rep\n" ++ "D=D-1;JGT" := by
      simp only [render, renderInstr]
      apply String.ext
      simp only [String.data_append, List.append_assoc, List.cons_append,
        List.nil_append]
    rw [h2]

theorem to_asm_ctr (c : VMCommand) (jc : Nat) (sn fn : String) (j : Nat) (s : String)
    (h : VMCommand.to_asm c jc sn fn = .ok (j, s)) : j = ctrNext c jc := by
  cases c
  case CArithmetic op k =>
    simp only [VMCommand.to_asm, VMCommand.carithmetic2asm] at h
    split_ifs at h with h1 h2 h3
    · rcases h1 with h1 | h1 <;> subst h1 <;>
        simp [get_si_op, Bind.bind, Except.bind, pure, Except.pure] at h <;>
        simp [ctrNext, isCmp, h.1]
    · rcases h2 with h2 | h2 | h2 | h2 <;> subst h2 <;>
        simp [get_bi_op, Bind.bind, Except.bind, pure, Except.pure] at h <;>
        simp [ctrNext, isCmp, h.1]
    · rcases h3 with h3 | h3 | h3 <;> subst h3 <;>
        simp [get_cmp_op, Bind.bind, Except.bind, pure, Except.pure] at h <;>
        simp [ctrNext, isCmp, h.1]
  case CCall f k =>
    simp only [VMCommand.to_asm, VMCommand.ccall2asm] at h
    simp at h
    simp [ctrNext, h.1]
  case CPush seg idx =>
    simp only [VMCommand.to_asm] at h
    cases hc : VMCommand.cpush2asm seg idx sn <;> rw [hc] at h <;>
      simp [Bind.bind, Except.bind, pure, Except.pure] at h
    simp [ctrNext, h.1]
  case CPop seg idx =>
    simp only [VMCommand.to_asm] at h
    cases hc : VMCommand.cpop2asm seg idx sn <;> rw [hc] at h <;>
      simp [Bind.bind, Except.bind, pure, Except.pure] at h
    simp [ctrNext, h.1]
  case CLabel seg k =>
    simp only [VMCommand.to_asm, VMCommand.clabel2asm] at h
    simp [Bind.bind, Except.bind, pure, Except.pure] at h
    simp [ctrNext, h.1]
  case CGoto seg k =>
    simp only [VMCommand.to_asm, VMCommand.cgoto2asm] at h
    simp [Bind.bind, Except.bind, pure, Except.pure] at h
    simp [ctrNext, h.1]
  case CIf seg k =>
    simp only [VMCommand.to_asm, VMCommand.cif2asm] at h
    simp [Bind.bind, Except.bind, pure, Except.pure] at h
    simp [ctrNext, h.1]
  case CFunction f k =>
    simp only [VMCommand.to_asm] at h
    cases hc : VMCommand.cfunction2asm f k <;> rw [hc] at h <;>
      simp [Bind.bind, Except.bind, pure, Except.pure] at h
    simp [ctrNext, h.1]
  case CReturn a b =>
    simp only [VMCommand.to_asm, VMCommand.creturn2asm] at h
    simp [Bind.bind, Except.bind, pure, Except.pure] at h
    simp [ctrNext, h.1]

theorem wr_same (m : Nat → Nat) (a v : Nat) : wr m a v a = v := by
  simp [wr]

theorem wr_ne (m : Nat → Nat) (a v x : Nat) (h : ¬ x = a) : wr m a v x = m x := by
  simp [wr, h]

theorem wSub_small (a b : Nat) (hb : b ≤ a) (ha : a < 65536) : wSub a b = a - b := by
  unfold wSub
  omega

theorem wAdd_small (a b : Nat) (h : a + b < 65536) : wAdd a b = a + b := by
  unfold wAdd
  omega

theorem runStraight_append (σ : String → Nat) (l₁ l₂ : List Instr) (s : Mach) :
    runStraight σ (l₁ ++ l₂) s =
      match runStraight σ l₁ s with
      | (s2, none) => runStraight σ l₂ s2
      | (s2, some t) => (s2, some t) := by
  induction l₁ generalizing s with
  | nil => simp [runStraight]
  | cons i rest ih =>
    rw [List.cons_append, runStraight, runStraight]
    cases h : stepI σ s i with
    | mk s2 j =>
      cases j with
      | none => exact ih s2
      | some t => rfl

theorem runStraight_seq (σ : String → Nat) (l₁ l₂ : List Instr) (s t : Mach)
    (h : runStraight σ l₁ s = (t, none)) :
    runStraight σ (l₁ ++ l₂) s = runStraight σ l₂ t := by
  rw [runStraight_append, h]

theorem runB_loadStore (σ : String → Nat) (x y : String) (s : Mach) :
    runStraight σ [.at_sym x, .dEqM, .at_sym y, .mEqD] s =
      (⟨σ y, s.mem (σ x), wr s.mem (σ y) (s.mem (σ x))⟩, none) := by
  simp [runStraight, stepI]

theorem runB_frameLoad (σ : String → Nat) (y : String) (s : Mach) :
    runStraight σ [.at_num 5, .aEqDsubA, .dEqM, .at_sym y, .mEqD] s =
      (⟨σ y, s.mem (wSub s.regD 5), wr s.mem (σ y) (s.mem (wSub s.regD 5))⟩,
       none) := by
  simp [runStraight, stepI]

theorem runB_popStore (σ : String → Nat) (s : Mach) :
    runStraight σ
        [.at_sym "SP", .amEqMsub1, .dEqM, .at_sym "ARG", .aEqM, .mEqD] s =
      (⟨wr s.mem (σ "SP") (wSub (s.mem (σ "SP")) 1) (σ "ARG"),
        wr s.mem (σ "SP") (wSub (s.mem (σ "SP")) 1) (wSub (s.mem (σ "SP")) 1),
        wr (wr s.mem (σ "SP") (wSub (s.mem (σ "SP")) 1))
          (wr s.mem (σ "SP") (wSub (s.mem (σ "SP")) 1) (σ "ARG"))
          (wr s.mem (σ "SP") (wSub (s.mem (σ "SP")) 1)
            (wSub (s.mem (σ "SP")) 1))⟩,
       none) := by
  simp [runStraight, stepI]

theorem runB_spSet (σ : String → Nat) (s : Mach) :
    runStraight σ [.at_sym "ARG", .dEqM, .at_sym "SP", .mEqDplus1] s =
      (⟨σ "SP", s.mem (σ "ARG"), wr s.mem (σ "SP") (wAdd (s.mem (σ "ARG")) 1)⟩,
       none) := by
  simp [runStraight, stepI]

theorem runB_restore (σ : String → Nat) (y : String) (s : Mach) :
    runStraight σ [.at_sym "R13", .amEqMsub1, .dEqM, .at_sym y, .mEqD] s =
      (⟨σ y,
        wr s.mem (σ "R13") (wSub (s.mem (σ "R13")) 1) (wSub (s.mem (σ "R13")) 1),
        wr (wr s.mem (σ "R13") (wSub (s.mem (σ "R13")) 1)) (σ y)
          (wr s.mem (σ "R13") (wSub (s.mem (σ "R13")) 1)
            (wSub (s.mem (σ "R13")) 1))⟩,
       none) := by
  simp [runStraight, stepI]

theorem runB_indirectJmp (σ : String → Nat) (s : Mach) :
    runStraight σ [.at_sym "R14", .aEqM, .jmp] s =
      (⟨s.mem (σ "R14"), s.regD, s.mem⟩, some (s.mem (σ "R14"))) := by
  simp [runStraight, stepI]

theorem creturn_sep (l a sp : Nat) (hl : 20 ≤ l) (hlhi : l < 65536) (ha : 15 ≤ a)
    (hal : a + 5 ≤ l) (hsp : l < sp) (hsphi : sp < 65536) :
    (5 ≤ l) ∧ (1 ≤ sp) ∧ (1 ≤ l) ∧
    (l - 1 - 1 = l - 2) ∧ (1 ≤ l - 1) ∧ (l - 1 < 65536) ∧
    (l - 2 - 1 = l - 3) ∧ (1 ≤ l - 2) ∧ (l - 2 < 65536) ∧
    (l - 3 - 1 = l - 4) ∧ (1 ≤ l - 3) ∧ (l - 3 < 65536) ∧
    (a + 1 < 65536) ∧
    ¬ (l - 5 = 13) ∧ ¬ (sp - 1 = 0) ∧ ¬ (sp - 1 = 13) ∧ ¬ (sp - 1 = 14) ∧
    ¬ ((2 : Nat) = a) ∧ ¬ ((13 : Nat) = a) ∧
    ¬ (l - 1 = 13) ∧ ¬ (l - 1 = 0) ∧ ¬ (l - 1 = 14) ∧ ¬ (l - 1 = a) ∧
    ¬ (l - 2 = 13) ∧ ¬ (l - 2 = 4) ∧ ¬ (l - 2 = 0) ∧ ¬ (l - 2 = 14) ∧
    ¬ (l - 2 = a) ∧
    ¬ (l - 3 = 13) ∧ ¬ (l - 3 = 3) ∧ ¬ (l - 3 = 4) ∧ ¬ (l - 3 = 0) ∧
    ¬ (l - 3 = 14) ∧ ¬ (l - 3 = a) ∧
    ¬ (l - 4 = 13) ∧ ¬ (l - 4 = 2) ∧ ¬ (l - 4 = 3) ∧ ¬ (l - 4 = 4) ∧
    ¬ (l - 4 = 0) ∧ ¬ (l - 4 = 14) ∧ ¬ (l - 4 = a) ∧
    ¬ ((14 : Nat) = a) := by
  omega

set_option maxHeartbeats 1000000 in
theorem creturn_exec (σ : String → Nat) (s0 : Mach)
    (l a sp rv tTHAT tTHIS tARG tLCL retA : Nat)
    (hSP : σ "SP" = 0) (hLCL : σ "LCL" = 1) (hARG : σ "ARG" = 2)
    (hTHIS : σ "THIS" = 3) (hTHAT : σ "THAT" = 4)
    (hR13 : σ "R13" = 13) (hR14 : σ "R14" = 14)
    (hm0 : s0.mem 0 = sp) (hm1 : s0.mem 1 = l) (hm2 : s0.mem 2 = a)
    (hf1 : s0.mem (l - 1) = tTHAT) (hf2 : s0.mem (l - 2) = tTHIS)
    (hf3 : s0.mem (l - 3) = tARG) (hf4 : s0.mem (l - 4) = tLCL)
    (hf5 : s0.mem (l - 5) = retA) (htop : s0.mem (sp - 1) = rv)
    (hl : 20 ≤ l) (hlhi : l < 65536) (ha : 15 ≤ a) (hal : a + 5 ≤ l)
    (hsp : l < sp) (hsphi : sp < 65536) :
    runStraight σ creturnInstrs s0 =
      (⟨retA, tLCL,
        wr (wr (wr (wr (wr (wr (wr (wr (wr (wr (wr (wr (wr s0.mem
          13 l) 14 retA) 0 (sp - 1)) a rv) 0 (a + 1)) 13 (l - 1)) 4 tTHAT)
          13 (l - 2)) 3 tTHIS) 13 (l - 3)) 2 tARG) 13 (l - 4)) 1 tLCL⟩,
       some retA) := by
  obtain ⟨g1, g2, g3, g4, g5, g6, g7, g8, g9, g10, g11, g12, g13,
    e1, e2, e3, e4, e8, e14, e16, e17, e18, e19,
    e22, e23, e24, e25, e26, e29, e30, e31, e32, e33, e34,
    e37, e38, e39, e40, e41, e42, e43, e51⟩ :=
    creturn_sep l a sp hl hlhi ha hal hsp hsphi
  have hw1 : wSub l 5 = l - 5 := wSub_small l 5 g1 hlhi
  have hw2 : wSub sp 1 = sp - 1 := wSub_small sp 1 g2 hsphi
  have hw3 : wSub l 1 = l - 1 := wSub_small l 1 g3 hlhi
  have hw4 : wSub (l - 1) 1 = l - 2 := (wSub_small (l - 1) 1 g5 g6).trans g4
  have hw5 : wSub (l - 2) 1 = l - 3 := (wSub_small (l - 2) 1 g8 g9).trans g7
  have hw6 : wSub (l - 3) 1 = l - 4 := (wSub_small (l - 3) 1 g11 g12).trans g10
  have hwa : wAdd a 1 = a + 1 := wAdd_small a 1 g13
  have e5 : ¬ ((2 : Nat) = 0) := by decide
  have e6 : ¬ ((2 : Nat) = 13) := by decide
  have e7 : ¬ ((2 : Nat) = 14) := by decide
  have e9 : ¬ ((0 : Nat) = 13) := by decide
  have e10 : ¬ ((0 : Nat) = 14) := by decide
  have e12 : ¬ ((13 : Nat) = 0) := by decide
  have e13 : ¬ ((13 : Nat) = 14) := by decide
  have e21 : ¬ ((13 : Nat) = 4) := by decide
  have e28 : ¬ ((13 : Nat) = 3) := by decide
  have e36 : ¬ ((13 : Nat) = 2) := by decide
  have e45 : ¬ ((14 : Nat) = 1) := by decide
  have e46 : ¬ ((14 : Nat) = 13) := by decide
  have e47 : ¬ ((14 : Nat) = 2) := by decide
  have e48 : ¬ ((14 : Nat) = 3) := by decide
  have e49 : ¬ ((14 : Nat) = 4) := by decide
  have e50 : ¬ ((14 : Nat) = 0) := by decide
  have s1 : runStraight σ
      [.at_sym "LCL", .dEqM, .at_sym "R13", .mEqD] s0 =
      ((⟨13, l, wr s0.mem 13 l⟩ : Mach), none) := by
    rw [runB_loadStore]
    simp only [hLCL, hR13, hm1]
  have s2 : runStraight σ
      [.at_num 5, .aEqDsubA, .dEqM, .at_sym "R14", .mEqD] (⟨13, l, wr s0.mem 13 l⟩ : Mach) =
      ((⟨14, retA, wr (wr s0.mem 13 l) 14 retA⟩ : Mach), none) := by
    rw [runB_frameLoad]
    simp only [hR14, hw1, wr_ne _ _ _ _ e1, hf5]
  have s3 : runStraight σ
      [.at_sym "SP", .amEqMsub1, .dEqM, .at_sym "ARG", .aEqM, .mEqD] (⟨14, retA, wr (wr s0.mem 13 l) 14 retA⟩ : Mach) =
      ((⟨a, rv, wr (wr (wr (wr s0.mem 13 l) 14 retA) 0 (sp - 1)) a rv⟩ : Mach), none) := by
    rw [runB_popStore]
    simp only [hSP, hARG, hm0, hw2, hm2, htop, wr_ne _ _ _ _ e9, wr_ne _ _ _ _ e10, wr_ne _ _ _ _ e5, wr_ne _ _ _ _ e6, wr_ne _ _ _ _ e7, wr_ne _ _ _ _ e2, wr_ne _ _ _ _ e3, wr_ne _ _ _ _ e4]
  have s4 : runStraight σ
      [.at_sym "ARG", .dEqM, .at_sym "SP", .mEqDplus1] (⟨a, rv, wr (wr (wr (wr s0.mem 13 l) 14 retA) 0 (sp - 1)) a rv⟩ : Mach) =
      ((⟨0, a, wr (wr (wr (wr (wr s0.mem 13 l) 14 retA) 0 (sp - 1)) a rv) 0 (a + 1)⟩ : Mach), none) := by
    rw [runB_spSet]
    simp only [hSP, hARG, hwa, hm2, wr_ne _ _ _ _ e8, wr_ne _ _ _ _ e5, wr_ne _ _ _ _ e6, wr_ne _ _ _ _ e7]
  have s5 : runStraight σ
      [.at_sym "R13", .amEqMsub1, .dEqM, .at_sym "THAT", .mEqD] (⟨0, a, wr (wr (wr (wr (wr s0.mem 13 l) 14 retA) 0 (sp - 1)) a rv) 0 (a + 1)⟩ : Mach) =
      ((⟨4, tTHAT, wr (wr (wr (wr (wr (wr (wr s0.mem 13 l) 14 retA) 0 (sp - 1)) a rv) 0 (a + 1)) 13 (l - 1)) 4 tTHAT⟩ : Mach), none) := by
    rw [runB_restore]
    simp only [hR13, hTHAT, hw3, hf1, wr_same, wr_ne _ _ _ _ e12, wr_ne _ _ _ _ e13, wr_ne _ _ _ _ e14, wr_ne _ _ _ _ e16, wr_ne _ _ _ _ e17, wr_ne _ _ _ _ e18, wr_ne _ _ _ _ e19]
  have s6 : runStraight σ
      [.at_sym "R13", .amEqMsub1, .dEqM, .at_sym "THIS", .mEqD] (⟨4, tTHAT, wr (wr (wr (wr (wr (wr (wr s0.mem 13 l) 14 retA) 0 (sp - 1)) a rv) 0 (a + 1)) 13 (l - 1)) 4 tTHAT⟩ : Mach) =
      ((⟨3, tTHIS, wr (wr (wr (wr (wr (wr (wr (wr (wr s0.mem 13 l) 14 retA) 0 (sp - 1)) a rv) 0 (a + 1)) 13 (l - 1)) 4 tTHAT) 13 (l - 2)) 3 tTHIS⟩ : Mach), none) := by
    rw [runB_restore]
    simp only [hR13, hTHIS, hw4, hf2, wr_same, wr_ne _ _ _ _ e21, wr_ne _ _ _ _ e12, wr_ne _ _ _ _ e13, wr_ne _ _ _ _ e14, wr_ne _ _ _ _ e22, wr_ne _ _ _ _ e23, wr_ne _ _ _ _ e24, wr_ne _ _ _ _ e25, wr_ne _ _ _ _ e26]
  have s7 : runStraight σ
      [.at_sym "R13", .amEqMsub1, .dEqM, .at_sym "ARG", .mEqD] (⟨3, tTHIS, wr (wr (wr (wr (wr (wr (wr (wr (wr s0.mem 13 l) 14 retA) 0 (sp - 1)) a rv) 0 (a + 1)) 13 (l - 1)) 4 tTHAT) 13 (l - 2)) 3 tTHIS⟩ : Mach) =
      ((⟨2, tARG, wr (wr (wr (wr (wr (wr (wr (wr (wr (wr (wr s0.mem 13 l) 14 retA) 0 (sp - 1)) a rv) 0 (a + 1)) 13 (l - 1)) 4 tTHAT) 13 (l - 2)) 3 tTHIS) 13 (l - 3)) 2 tARG⟩ : Mach), none) := by
    rw [runB_restore]
    simp only [hR13, hARG, hw5, hf3, wr_same, wr_ne _ _ _ _ e28, wr_ne _ _ _ _ e21, wr_ne _ _ _ _ e12, wr_ne _ _ _ _ e13, wr_ne _ _ _ _ e14, wr_ne _ _ _ _ e29, wr_ne _ _ _ _ e30, wr_ne _ _ _ _ e31, wr_ne _ _ _ _ e32, wr_ne _ _ _ _ e33, wr_ne _ _ _ _ e34]
  have s8 : runStraight σ
      [.at_sym "R13", .amEqMsub1, .dEqM, .at_sym "LCL", .mEqD] (⟨2, tARG, wr (wr (wr (wr (wr (wr (wr (wr (wr (wr (wr s0.mem 13 l) 14 retA) 0 (sp - 1)) a rv) 0 (a + 1)) 13 (l - 1)) 4 tTHAT) 13 (l - 2)) 3 tTHIS) 13 (l - 3)) 2 tARG⟩ : Mach) =
      ((⟨1, tLCL, wr (wr (wr (wr (wr (wr (wr (wr (wr (wr (wr (wr (wr s0.mem 13 l) 14 retA) 0 (sp - 1)) a rv) 0 (a + 1)) 13 (l - 1)) 4 tTHAT) 13 (l - 2)) 3 tTHIS) 13 (l - 3)) 2 tARG) 13 (l - 4)) 1 tLCL⟩ : Mach), none) := by
    rw [runB_restore]
    simp only [hR13, hLCL, hw6, hf4, wr_same, wr_ne _ _ _ _ e36, wr_ne _ _ _ _ e28, wr_ne _ _ _ _ e21, wr_ne _ _ _ _ e12, wr_ne _ _ _ _ e13, wr_ne _ _ _ _ e14, wr_ne _ _ _ _ e37, wr_ne _ _ _ _ e38, wr_ne _ _ _ _ e39, wr_ne _ _ _ _ e40, wr_ne _ _ _ _ e41, wr_ne _ _ _ _ e42, wr_ne _ _ _ _ e43]
  have s9 : runStraight σ
      [.at_sym "R14", .aEqM, .jmp] (⟨1, tLCL, wr (wr (wr (wr (wr (wr (wr (wr (wr (wr (wr (wr (wr s0.mem 13 l) 14 retA) 0 (sp - 1)) a rv) 0 (a + 1)) 13 (l - 1)) 4 tTHAT) 13 (l - 2)) 3 tTHIS) 13 (l - 3)) 2 tARG) 13 (l - 4)) 1 tLCL⟩ : Mach) =
      ((⟨retA, tLCL, wr (wr (wr (wr (wr (wr (wr (wr (wr (wr (wr (wr (wr s0.mem 13 l) 14 retA) 0 (sp - 1)) a rv) 0 (a + 1)) 13 (l - 1)) 4 tTHAT) 13 (l - 2)) 3 tTHIS) 13 (l - 3)) 2 tARG) 13 (l - 4)) 1 tLCL⟩ : Mach), some retA) := by
    rw [runB_indirectJmp]
    simp only [hR14, wr_same, wr_ne _ _ _ _ e45, wr_ne _ _ _ _ e46, wr_ne _ _ _ _ e47, wr_ne _ _ _ _ e48, wr_ne _ _ _ _ e49, wr_ne _ _ _ _ e50, wr_ne _ _ _ _ e51]
  rw [show creturnInstrs =
      [.at_sym "LCL", .dEqM, .at_sym "R13", .mEqD] ++ ([.at_num 5, .aEqDsubA, .dEqM, .at_sym "R14", .mEqD] ++ ([.at_sym "SP", .amEqMsub1, .dEqM, .at_sym "ARG", .aEqM, .mEqD] ++ ([.at_sym "ARG", .dEqM, .at_sym "SP", .mEqDplus1] ++ ([.at_sym "R13", .amEqMsub1, .dEqM, .at_sym "THAT", .mEqD] ++ ([.at_sym "R13", .amEqMsub1, .dEqM, .at_sym "THIS", .mEqD] ++ ([.at_sym "R13", .amEqMsub1, .dEqM, .at_sym "ARG", .mEqD] ++ ([.at_sym "R13", .amEqMsub1, .dEqM, .at_sym "LCL", .mEqD] ++ ([.at_sym "R14", .aEqM, .jmp])))))))) from rfl]
  rw [runStraight_seq _ _ _ _ _ s1]
  rw [runStraight_seq _ _ _ _ _ s2]
  rw [runStraight_seq _ _ _ _ _ s3]
  rw [runStraight_seq _ _ _ _ _ s4]
  rw [runStraight_seq _ _ _ _ _ s5]
  rw [runStraight_seq _ _ _ _ _ s6]
  rw [runStraight_seq _ _ _ _ _ s7]
  rw [runStraight_seq _ _ _ _ _ s8]
  exact s9

theorem runB_pushAddr (σ : String → Nat) (x : String) (s : Mach) :
    runStraight σ [.at_sym x, .dEqA, .at_sym "SP", .amEqMplus1, .aEqAsub1, .mEqD] s =
      (⟨wSub (wAdd (s.mem (σ "SP")) 1) 1, σ x,
        wr (wr s.mem (σ "SP") (wAdd (s.mem (σ "SP")) 1))
          (wSub (wAdd (s.mem (σ "SP")) 1) 1) (σ x)⟩,
       none) := by
  simp [runStraight, stepI]

theorem runB_pushMem (σ : String → Nat) (x : String) (s : Mach) :
    runStraight σ [.at_sym x, .dEqM, .at_sym "SP", .amEqMplus1, .aEqAsub1, .mEqD] s =
      (⟨wSub (wAdd (s.mem (σ "SP")) 1) 1, s.mem (σ x),
        wr (wr s.mem (σ "SP") (wAdd (s.mem (σ "SP")) 1))
          (wSub (wAdd (s.mem (σ "SP")) 1) 1) (s.mem (σ x))⟩,
       none) := by
  simp [runStraight, stepI]

theorem runB_argSet (σ : String → Nat) (n : Nat) (s : Mach) :
    runStraight σ
        [.at_num 5, .dEqDsubA, .at_num n, .dEqDsubA, .at_sym "ARG", .mEqD] s =
      (⟨σ "ARG", wSub (wSub s.regD 5) n,
        wr s.mem (σ "ARG") (wSub (wSub s.regD 5) n)⟩, none) := by
  simp [runStraight, stepI]

theorem runB_jmpSym (σ : String → Nat) (x : String) (s : Mach) :
    runStraight σ [.at_sym x, .jmp] s = (⟨σ x, s.regD, s.mem⟩, some (σ x)) := by
  simp [runStraight, stepI]

theorem runStraight_stop (σ : String → Nat) (l₁ l₂ : List Instr) (s t : Mach)
    (tgt : Nat) (h : runStraight σ l₁ s = (t, some tgt)) :
    runStraight σ (l₁ ++ l₂) s = (t, some tgt) := by
  rw [runStraight_append, h]

theorem ccall_sep (sp : Nat) (h16 : 16 ≤ sp) (hhi : sp + 5 < 65536) :
    (sp + 1 < 65536) ∧ (sp + 2 < 65536) ∧ (sp + 3 < 65536) ∧
    (sp + 4 < 65536) ∧ (sp + 5 < 65536) ∧
    (1 ≤ sp + 1) ∧ (1 ≤ sp + 2) ∧ (1 ≤ sp + 3) ∧ (1 ≤ sp + 4) ∧ (1 ≤ sp + 5) ∧
    (sp + 1 - 1 = sp) ∧ (sp + 2 - 1 = sp + 1) ∧ (sp + 3 - 1 = sp + 2) ∧
    (sp + 4 - 1 = sp + 3) ∧ (sp + 5 - 1 = sp + 4) ∧
    (sp + 1 + 1 = sp + 2) ∧ (sp + 2 + 1 = sp + 3) ∧ (sp + 3 + 1 = sp + 4) ∧
    (sp + 4 + 1 = sp + 5) ∧
    (5 ≤ sp + 5) ∧ (sp + 5 - 5 = sp) ∧ (sp < 65536) ∧
    ¬ ((0 : Nat) = sp) ∧ ¬ ((0 : Nat) = sp + 1) ∧ ¬ ((0 : Nat) = sp + 2) ∧
    ¬ ((0 : Nat) = sp + 3) ∧ ¬ ((0 : Nat) = sp + 4) ∧
    ¬ ((1 : Nat) = sp) ∧ ¬ ((2 : Nat) = sp) ∧ ¬ ((2 : Nat) = sp + 1) ∧
    ¬ ((3 : Nat) = sp) ∧ ¬ ((3 : Nat) = sp + 1) ∧ ¬ ((3 : Nat) = sp + 2) ∧
    ¬ ((4 : Nat) = sp) ∧ ¬ ((4 : Nat) = sp + 1) ∧ ¬ ((4 : Nat) = sp + 2) ∧
    ¬ ((4 : Nat) = sp + 3) ∧
    ¬ (sp = 0) ∧ ¬ (sp = 1) ∧ ¬ (sp = 2) ∧
    ¬ (sp = sp + 1) ∧ ¬ (sp = sp + 2) ∧ ¬ (sp = sp + 3) ∧ ¬ (sp = sp + 4) ∧
    ¬ (sp + 1 = 0) ∧ ¬ (sp + 1 = 1) ∧ ¬ (sp + 1 = 2) ∧
    ¬ (sp + 1 = sp + 2) ∧ ¬ (sp + 1 = sp + 3) ∧ ¬ (sp + 1 = sp + 4) ∧
    ¬ (sp + 2 = 0) ∧ ¬ (sp + 2 = 1) ∧ ¬ (sp + 2 = 2) ∧
    ¬ (sp + 2 = sp + 3) ∧ ¬ (sp + 2 = sp + 4) ∧
    ¬ (sp + 3 = 0) ∧ ¬ (sp + 3 = 1) ∧ ¬ (sp + 3 = 2) ∧ ¬ (sp + 3 = sp + 4) ∧
    ¬ (sp + 4 = 1) ∧ ¬ (sp + 4 = 2) := by
  omega

set_option maxHeartbeats 1000000 in
theorem ccall_exec (σ : String → Nat) (s0 : Mach) (f : String)
    (n jc sp valL valA valT valTT : Nat)
    (hSP : σ "SP" = 0) (hLCL : σ "LCL" = 1) (hARG : σ "ARG" = 2)
    (hTHIS : σ "THIS" = 3) (hTHAT : σ "THAT" = 4)
    (hm0 : s0.mem 0 = sp) (hv1 : s0.mem 1 = valL) (hv2 : s0.mem 2 = valA)
    (hv3 : s0.mem 3 = valT) (hv4 : s0.mem 4 = valTT)
    (h16 : 16 ≤ sp) (hhi : sp + 5 < 65536) (hn : n ≤ sp) :
    runStraight σ (ccallInstrs f n jc) s0 =
      ((⟨σ f, sp - n, wr (wr (wr (wr (wr (wr (wr (wr (wr (wr (wr (wr s0.mem 0 (sp + 1)) sp (σ (f ++ "$ret." ++ Nat.repr jc))) 0 (sp + 2)) (sp + 1) valL) 0 (sp + 3)) (sp + 2) valA) 0 (sp + 4)) (sp + 3) valT) 0 (sp + 5)) (sp + 4) valTT) 1 (sp + 5)) 2 (sp - n)⟩ : Mach), some (σ f)) ∧
    (wr (wr (wr (wr (wr (wr (wr (wr (wr (wr (wr (wr s0.mem 0 (sp + 1)) sp (σ (f ++ "$ret." ++ Nat.repr jc))) 0 (sp + 2)) (sp + 1) valL) 0 (sp + 3)) (sp + 2) valA) 0 (sp + 4)) (sp + 3) valT) 0 (sp + 5)) (sp + 4) valTT) 1 (sp + 5)) 2 (sp - n)) sp = σ (f ++ "$ret." ++ Nat.repr jc) ∧
    (wr (wr (wr (wr (wr (wr (wr (wr (wr (wr (wr (wr s0.mem 0 (sp + 1)) sp (σ (f ++ "$ret." ++ Nat.repr jc))) 0 (sp + 2)) (sp + 1) valL) 0 (sp + 3)) (sp + 2) valA) 0 (sp + 4)) (sp + 3) valT) 0 (sp + 5)) (sp + 4) valTT) 1 (sp + 5)) 2 (sp - n)) (sp + 1) = valL ∧
    (wr (wr (wr (wr (wr (wr (wr (wr (wr (wr (wr (wr s0.mem 0 (sp + 1)) sp (σ (f ++ "$ret." ++ Nat.repr jc))) 0 (sp + 2)) (sp + 1) valL) 0 (sp + 3)) (sp + 2) valA) 0 (sp + 4)) (sp + 3) valT) 0 (sp + 5)) (sp + 4) valTT) 1 (sp + 5)) 2 (sp - n)) (sp + 2) = valA ∧
    (wr (wr (wr (wr (wr (wr (wr (wr (wr (wr (wr (wr s0.mem 0 (sp + 1)) sp (σ (f ++ "$ret." ++ Nat.repr jc))) 0 (sp + 2)) (sp + 1) valL) 0 (sp + 3)) (sp + 2) valA) 0 (sp + 4)) (sp + 3) valT) 0 (sp + 5)) (sp + 4) valTT) 1 (sp + 5)) 2 (sp - n)) (sp + 3) = valT ∧
    (wr (wr (wr (wr (wr (wr (wr (wr (wr (wr (wr (wr s0.mem 0 (sp + 1)) sp (σ (f ++ "$ret." ++ Nat.repr jc))) 0 (sp + 2)) (sp + 1) valL) 0 (sp + 3)) (sp + 2) valA) 0 (sp + 4)) (sp + 3) valT) 0 (sp + 5)) (sp + 4) valTT) 1 (sp + 5)) 2 (sp - n)) (sp + 4) = valTT ∧
    (wr (wr (wr (wr (wr (wr (wr (wr (wr (wr (wr (wr s0.mem 0 (sp + 1)) sp (σ (f ++ "$ret." ++ Nat.repr jc))) 0 (sp + 2)) (sp + 1) valL) 0 (sp + 3)) (sp + 2) valA) 0 (sp + 4)) (sp + 3) valT) 0 (sp + 5)) (sp + 4) valTT) 1 (sp + 5)) 2 (sp - n)) 0 = sp + 5 ∧
    (wr (wr (wr (wr (wr (wr (wr (wr (wr (wr (wr (wr s0.mem 0 (sp + 1)) sp (σ (f ++ "$ret." ++ Nat.repr jc))) 0 (sp + 2)) (sp + 1) valL) 0 (sp + 3)) (sp + 2) valA) 0 (sp + 4)) (sp + 3) valT) 0 (sp + 5)) (sp + 4) valTT) 1 (sp + 5)) 2 (sp - n)) 1 = sp + 5 ∧
    (wr (wr (wr (wr (wr (wr (wr (wr (wr (wr (wr (wr s0.mem 0 (sp + 1)) sp (σ (f ++ "$ret." ++ Nat.repr jc))) 0 (sp + 2)) (sp + 1) valL) 0 (sp + 3)) (sp + 2) valA) 0 (sp + 4)) (sp + 3) valT) 0 (sp + 5)) (sp + 4) valTT) 1 (sp + 5)) 2 (sp - n)) 2 = sp - n := by
  obtain ⟨g1, g2, g3, g4, g5, g6, g7, g8, g9, g10, g11, g12, g13, g14, g15, g16, g17, g18, g19, g20, g21, g22, q23, q24, q25, q26, q27, q28, q29, q30, q31, q32, q33, q34, q35, q36, q37, q38, q39, q40, q41, q42, q43, q44, q45, q46, q47, q48, q49, q50, q51, q52, q53, q54, q55, q56, q57, q58, q59, q60, q61⟩ := ccall_sep sp h16 hhi
  have d1 : ¬ ((1 : Nat) = 0) := by decide
  have d2 : ¬ ((2 : Nat) = 0) := by decide
  have d3 : ¬ ((3 : Nat) = 0) := by decide
  have d4 : ¬ ((4 : Nat) = 0) := by decide
  have d0a : ¬ ((0 : Nat) = 2) := by decide
  have d0b : ¬ ((0 : Nat) = 1) := by decide
  have d1c : ¬ ((1 : Nat) = 2) := by decide
  have hA1 : wAdd sp 1 = sp + 1 := wAdd_small sp 1 g1
  have hS1 : wSub (sp + 1) 1 = sp := (wSub_small (sp + 1) 1 g6 g1).trans g11
  have hA2 : wAdd (sp + 1) 1 = sp + 2 :=
    (wAdd_small (sp + 1) 1 (lt_of_eq_of_lt g16 g2)).trans g16
  have hS2 : wSub (sp + 2) 1 = sp + 1 := (wSub_small (sp + 2) 1 g7 g2).trans g12
  have hA3 : wAdd (sp + 2) 1 = sp + 3 :=
    (wAdd_small (sp + 2) 1 (lt_of_eq_of_lt g17 g3)).trans g17
  have hS3 : wSub (sp + 3) 1 = sp + 2 := (wSub_small (sp + 3) 1 g8 g3).trans g13
  have hA4 : wAdd (sp + 3) 1 = sp + 4 :=
    (wAdd_small (sp + 3) 1 (lt_of_eq_of_lt g18 g4)).trans g18
  have hS4 : wSub (sp + 4) 1 = sp + 3 := (wSub_small (sp + 4) 1 g9 g4).trans g14
  have hA5 : wAdd (sp + 4) 1 = sp + 5 :=
    (wAdd_small (sp + 4) 1 (lt_of_eq_of_lt g19 g5)).trans g19
  have hS5 : wSub (sp + 5) 1 = sp + 4 := (wSub_small (sp + 5) 1 g10 g5).trans g15
  have hS75 : wSub (sp + 5) 5 = sp := (wSub_small (sp + 5) 5 g20 g5).trans g21
  have hS7n : wSub sp n = sp - n := wSub_small sp n hn g22
  have c1 : runStraight σ
      [.at_sym (f ++ "$ret." ++ Nat.repr jc), .dEqA, .at_sym "SP", .amEqMplus1, .aEqAsub1, .mEqD] s0 =
      ((⟨sp, (σ (f ++ "$ret." ++ Nat.repr jc)), wr (wr s0.mem 0 (sp + 1)) sp (σ (f ++ "$ret." ++ Nat.repr jc))⟩ : Mach), none) := by
    rw [runB_pushAddr]
    simp only [hSP, hm0, hA1, hS1]
  have c2 : runStraight σ
      [.at_sym "LCL", .dEqM, .at_sym "SP", .amEqMplus1, .aEqAsub1, .mEqD] (⟨sp, (σ (f ++ "$ret." ++ Nat.repr jc)), wr (wr s0.mem 0 (sp + 1)) sp (σ (f ++ "$ret." ++ Nat.repr jc))⟩ : Mach) =
      ((⟨sp + 1, valL, wr (wr (wr (wr s0.mem 0 (sp + 1)) sp (σ (f ++ "$ret." ++ Nat.repr jc))) 0 (sp + 2)) (sp + 1) valL⟩ : Mach), none) := by
    rw [runB_pushMem]
    simp only [hSP, hLCL, hA2, hS2, hv1, wr_same, wr_ne _ _ _ _ q23, wr_ne _ _ _ _ q28, wr_ne _ _ _ _ d1]
  have c3 : runStraight σ
      [.at_sym "ARG", .dEqM, .at_sym "SP", .amEqMplus1, .aEqAsub1, .mEqD] (⟨sp + 1, valL, wr (wr (wr (wr s0.mem 0 (sp + 1)) sp (σ (f ++ "$ret." ++ Nat.repr jc))) 0 (sp + 2)) (sp + 1) valL⟩ : Mach) =
      ((⟨sp + 2, valA, wr (wr (wr (wr (wr (wr s0.mem 0 (sp + 1)) sp (σ (f ++ "$ret." ++ Nat.repr jc))) 0 (sp + 2)) (sp + 1) valL) 0 (sp + 3)) (sp + 2) valA⟩ : Mach), none) := by
    rw [runB_pushMem]
    simp only [hSP, hARG, hA3, hS3, hv2, wr_same, wr_ne _ _ _ _ q24, wr_ne _ _ _ _ q29, wr_ne _ _ _ _ q30, wr_ne _ _ _ _ d2]
  have c4 : runStraight σ
      [.at_sym "THIS", .dEqM, .at_sym "SP", .amEqMplus1, .aEqAsub1, .mEqD] (⟨sp + 2, valA, wr (wr (wr (wr (wr (wr s0.mem 0 (sp + 1)) sp (σ (f ++ "$ret." ++ Nat.repr jc))) 0 (sp + 2)) (sp + 1) valL) 0 (sp + 3)) (sp + 2) valA⟩ : Mach) =
      ((⟨sp + 3, valT, wr (wr (wr (wr (wr (wr (wr (wr s0.mem 0 (sp + 1)) sp (σ (f ++ "$ret." ++ Nat.repr jc))) 0 (sp + 2)) (sp + 1) valL) 0 (sp + 3)) (sp + 2) valA) 0 (sp + 4)) (sp + 3) valT⟩ : Mach), none) := by
    rw [runB_pushMem]
    simp only [hSP, hTHIS, hA4, hS4, hv3, wr_same, wr_ne _ _ _ _ q25, wr_ne _ _ _ _ q31, wr_ne _ _ _ _ q32, wr_ne _ _ _ _ q33, wr_ne _ _ _ _ d3]
  have c5 : runStraight σ
      [.at_sym "THAT", .dEqM, .at_sym "SP", .amEqMplus1, .aEqAsub1, .mEqD] (⟨sp + 3, valT, wr (wr (wr (wr (wr (wr (wr (wr s0.mem 0 (sp + 1)) sp (σ (f ++ "$ret." ++ Nat.repr jc))) 0 (sp + 2)) (sp + 1) valL) 0 (sp + 3)) (sp + 2) valA) 0 (sp + 4)) (sp + 3) valT⟩ : Mach) =
      ((⟨sp + 4, valTT, wr (wr (wr (wr (wr (wr (wr (wr (wr (wr s0.mem 0 (sp + 1)) sp (σ (f ++ "$ret." ++ Nat.repr jc))) 0 (sp + 2)) (sp + 1) valL) 0 (sp + 3)) (sp + 2) valA) 0 (sp + 4)) (sp + 3) valT) 0 (sp + 5)) (sp + 4) valTT⟩ : Mach), none) := by
    rw [runB_pushMem]
    simp only [hSP, hTHAT, hA5, hS5, hv4, wr_same, wr_ne _ _ _ _ q26, wr_ne _ _ _ _ q34, wr_ne _ _ _ _ q35, wr_ne _ _ _ _ q36, wr_ne _ _ _ _ q37, wr_ne _ _ _ _ d4]
  have c6 : runStraight σ
      [.at_sym "SP", .dEqM, .at_sym "LCL", .mEqD] (⟨sp + 4, valTT, wr (wr (wr (wr (wr (wr (wr (wr (wr (wr s0.mem 0 (sp + 1)) sp (σ (f ++ "$ret." ++ Nat.repr jc))) 0 (sp + 2)) (sp + 1) valL) 0 (sp + 3)) (sp + 2) valA) 0 (sp + 4)) (sp + 3) valT) 0 (sp + 5)) (sp + 4) valTT⟩ : Mach) =
      ((⟨1, sp + 5, wr (wr (wr (wr (wr (wr (wr (wr (wr (wr (wr s0.mem 0 (sp + 1)) sp (σ (f ++ "$ret." ++ Nat.repr jc))) 0 (sp + 2)) (sp + 1) valL) 0 (sp + 3)) (sp + 2) valA) 0 (sp + 4)) (sp + 3) valT) 0 (sp + 5)) (sp + 4) valTT) 1 (sp + 5)⟩ : Mach), none) := by
    rw [runB_loadStore]
    simp only [hSP, hLCL, wr_same, wr_ne _ _ _ _ q27]
  have c7 : runStraight σ
      [.at_num 5, .dEqDsubA, .at_num n, .dEqDsubA, .at_sym "ARG", .mEqD] (⟨1, sp + 5, wr (wr (wr (wr (wr (wr (wr (wr (wr (wr (wr s0.mem 0 (sp + 1)) sp (σ (f ++ "$ret." ++ Nat.repr jc))) 0 (sp + 2)) (sp + 1) valL) 0 (sp + 3)) (sp + 2) valA) 0 (sp + 4)) (sp + 3) valT) 0 (sp + 5)) (sp + 4) valTT) 1 (sp + 5)⟩ : Mach) =
      ((⟨2, sp - n, wr (wr (wr (wr (wr (wr (wr (wr (wr (wr (wr (wr s0.mem 0 (sp + 1)) sp (σ (f ++ "$ret." ++ Nat.repr jc))) 0 (sp + 2)) (sp + 1) valL) 0 (sp + 3)) (sp + 2) valA) 0 (sp + 4)) (sp + 3) valT) 0 (sp + 5)) (sp + 4) valTT) 1 (sp + 5)) 2 (sp - n)⟩ : Mach), none) := by
    rw [runB_argSet]
    simp only [hARG, hS75, hS7n]
  have c8 : runStraight σ
      [.at_sym f, .jmp] (⟨2, sp - n, wr (wr (wr (wr (wr (wr (wr (wr (wr (wr (wr (wr s0.mem 0 (sp + 1)) sp (σ (f ++ "$ret." ++ Nat.repr jc))) 0 (sp + 2)) (sp + 1) valL) 0 (sp + 3)) (sp + 2) valA) 0 (sp + 4)) (sp + 3) valT) 0 (sp + 5)) (sp + 4) valTT) 1 (sp + 5)) 2 (sp - n)⟩ : Mach) =
      ((⟨σ f, sp - n, wr (wr (wr (wr (wr (wr (wr (wr (wr (wr (wr (wr s0.mem 0 (sp + 1)) sp (σ (f ++ "$ret." ++ Nat.repr jc))) 0 (sp + 2)) (sp + 1) valL) 0 (sp + 3)) (sp + 2) valA) 0 (sp + 4)) (sp + 3) valT) 0 (sp + 5)) (sp + 4) valTT) 1 (sp + 5)) 2 (sp - n)⟩ : Mach), some (σ f)) := by
    rw [runB_jmpSym]
  refine ⟨?_, ?_, ?_, ?_, ?_, ?_, ?_, ?_, ?_⟩
  · rw [show ccallInstrs f n jc =
        [.at_sym (f ++ "$ret." ++ Nat.repr jc), .dEqA, .at_sym "SP", .amEqMplus1, .aEqAsub1, .mEqD] ++ ([.at_sym "LCL", .dEqM, .at_sym "SP", .amEqMplus1, .aEqAsub1, .mEqD] ++ ([.at_sym "ARG", .dEqM, .at_sym "SP", .amEqMplus1, .aEqAsub1, .mEqD] ++ ([.at_sym "THIS", .dEqM, .at_sym "SP", .amEqMplus1, .aEqAsub1, .mEqD] ++ ([.at_sym "THAT", .dEqM, .at_sym "SP", .amEqMplus1, .aEqAsub1, .mEqD] ++ ([.at_sym "SP", .dEqM, .at_sym "LCL", .mEqD] ++ ([.at_num 5, .dEqDsubA, .at_num n, .dEqDsubA, .at_sym "ARG", .mEqD] ++ ([.at_sym f, .jmp] ++ [.lbl (f ++ "$ret." ++ Nat.repr jc)]))))))) from rfl]
    rw [runStraight_seq _ _ _ _ _ c1]
    rw [runStraight_seq _ _ _ _ _ c2]
    rw [runStraight_seq _ _ _ _ _ c3]
    rw [runStraight_seq _ _ _ _ _ c4]
    rw [runStraight_seq _ _ _ _ _ c5]
    rw [runStraight_seq _ _ _ _ _ c6]
    rw [runStraight_seq _ _ _ _ _ c7]
    exact runStraight_stop _ _ _ _ _ _ c8
  · simp only [wr_same, wr_ne _ _ _ _ q23, wr_ne _ _ _ _ q24, wr_ne _ _ _ _ q25, wr_ne _ _ _ _ q26, wr_ne _ _ _ _ q27, wr_ne _ _ _ _ d0a, wr_ne _ _ _ _ d0b, wr_ne _ _ _ _ d1c, wr_ne _ _ _ _ q38, wr_ne _ _ _ _ q39, wr_ne _ _ _ _ q40, wr_ne _ _ _ _ q41, wr_ne _ _ _ _ q42, wr_ne _ _ _ _ q43, wr_ne _ _ _ _ q44, wr_ne _ _ _ _ q45, wr_ne _ _ _ _ q46, wr_ne _ _ _ _ q47, wr_ne _ _ _ _ q48, wr_ne _ _ _ _ q49, wr_ne _ _ _ _ q50, wr_ne _ _ _ _ q51, wr_ne _ _ _ _ q52, wr_ne _ _ _ _ q53, wr_ne _ _ _ _ q54, wr_ne _ _ _ _ q55, wr_ne _ _ _ _ q56, wr_ne _ _ _ _ q57, wr_ne _ _ _ _ q58, wr_ne _ _ _ _ q59, wr_ne _ _ _ _ q60, wr_ne _ _ _ _ q61]
  · simp only [wr_same, wr_ne _ _ _ _ q23, wr_ne _ _ _ _ q24, wr_ne _ _ _ _ q25, wr_ne _ _ _ _ q26, wr_ne _ _ _ _ q27, wr_ne _ _ _ _ d0a, wr_ne _ _ _ _ d0b, wr_ne _ _ _ _ d1c, wr_ne _ _ _ _ q38, wr_ne _ _ _ _ q39, wr_ne _ _ _ _ q40, wr_ne _ _ _ _ q41, wr_ne _ _ _ _ q42, wr_ne _ _ _ _ q43, wr_ne _ _ _ _ q44, wr_ne _ _ _ _ q45, wr_ne _ _ _ _ q46, wr_ne _ _ _ _ q47, wr_ne _ _ _ _ q48, wr_ne _ _ _ _ q49, wr_ne _ _ _ _ q50, wr_ne _ _ _ _ q51, wr_ne _ _ _ _ q52, wr_ne _ _ _ _ q53, wr_ne _ _ _ _ q54, wr_ne _ _ _ _ q55, wr_ne _ _ _ _ q56, wr_ne _ _ _ _ q57, wr_ne _ _ _ _ q58, wr_ne _ _ _ _ q59, wr_ne _ _ _ _ q60, wr_ne _ _ _ _ q61]
  · simp only [wr_same, wr_ne _ _ _ _ q23, wr_ne _ _ _ _ q24, wr_ne _ _ _ _ q25, wr_ne _ _ _ _ q26, wr_ne _ _ _ _ q27, wr_ne _ _ _ _ d0a, wr_ne _ _ _ _ d0b, wr_ne _ _ _ _ d1c, wr_ne _ _ _ _ q38, wr_ne _ _ _ _ q39, wr_ne _ _ _ _ q40, wr_ne _ _ _ _ q41, wr_ne _ _ _ _ q42, wr_ne _ _ _ _ q43, wr_ne _ _ _ _ q44, wr_ne _ _ _ _ q45, wr_ne _ _ _ _ q46, wr_ne _ _ _ _ q47, wr_ne _ _ _ _ q48, wr_ne _ _ _ _ q49, wr_ne _ _ _ _ q50, wr_ne _ _ _ _ q51, wr_ne _ _ _ _ q52, wr_ne _ _ _ _ q53, wr_ne _ _ _ _ q54, wr_ne _ _ _ _ q55, wr_ne _ _ _ _ q56, wr_ne _ _ _ _ q57, wr_ne _ _ _ _ q58, wr_ne _ _ _ _ q59, wr_ne _ _ _ _ q60, wr_ne _ _ _ _ q61]
  · simp only [wr_same, wr_ne _ _ _ _ q23, wr_ne _ _ _ _ q24, wr_ne _ _ _ _ q25, wr_ne _ _ _ _ q26, wr_ne _ _ _ _ q27, wr_ne _ _ _ _ d0a, wr_ne _ _ _ _ d0b, wr_ne _ _ _ _ d1c, wr_ne _ _ _ _ q38, wr_ne _ _ _ _ q39, wr_ne _ _ _ _ q40, wr_ne _ _ _ _ q41, wr_ne _ _ _ _ q42, wr_ne _ _ _ _ q43, wr_ne _ _ _ _ q44, wr_ne _ _ _ _ q45, wr_ne _ _ _ _ q46, wr_ne _ _ _ _ q47, wr_ne _ _ _ _ q48, wr_ne _ _ _ _ q49, wr_ne _ _ _ _ q50, wr_ne _ _ _ _ q51, wr_ne _ _ _ _ q52, wr_ne _ _ _ _ q53, wr_ne _ _ _ _ q54, wr_ne _ _ _ _ q55, wr_ne _ _ _ _ q56, wr_ne _ _ _ _ q57, wr_ne _ _ _ _ q58, wr_ne _ _ _ _ q59, wr_ne _ _ _ _ q60, wr_ne _ _ _ _ q61]
  · simp only [wr_same, wr_ne _ _ _ _ q23, wr_ne _ _ _ _ q24, wr_ne _ _ _ _ q25, wr_ne _ _ _ _ q26, wr_ne _ _ _ _ q27, wr_ne _ _ _ _ d0a, wr_ne _ _ _ _ d0b, wr_ne _ _ _ _ d1c, wr_ne _ _ _ _ q38, wr_ne _ _ _ _ q39, wr_ne _ _ _ _ q40, wr_ne _ _ _ _ q41, wr_ne _ _ _ _ q42, wr_ne _ _ _ _ q43, wr_ne _ _ _ _ q44, wr_ne _ _ _ _ q45, wr_ne _ _ _ _ q46, wr_ne _ _ _ _ q47, wr_ne _ _ _ _ q48, wr_ne _ _ _ _ q49, wr_ne _ _ _ _ q50, wr_ne _ _ _ _ q51, wr_ne _ _ _ _ q52, wr_ne _ _ _ _ q53, wr_ne _ _ _ _ q54, wr_ne _ _ _ _ q55, wr_ne _ _ _ _ q56, wr_ne _ _ _ _ q57, wr_ne _ _ _ _ q58, wr_ne _ _ _ _ q59, wr_ne _ _ _ _ q60, wr_ne _ _ _ _ q61]
  · simp only [wr_same, wr_ne _ _ _ _ q23, wr_ne _ _ _ _ q24, wr_ne _ _ _ _ q25, wr_ne _ _ _ _ q26, wr_ne _ _ _ _ q27, wr_ne _ _ _ _ d0a, wr_ne _ _ _ _ d0b, wr_ne _ _ _ _ d1c, wr_ne _ _ _ _ q38, wr_ne _ _ _ _ q39, wr_ne _ _ _ _ q40, wr_ne _ _ _ _ q41, wr_ne _ _ _ _ q42, wr_ne _ _ _ _ q43, wr_ne _ _ _ _ q44, wr_ne _ _ _ _ q45, wr_ne _ _ _ _ q46, wr_ne _ _ _ _ q47, wr_ne _ _ _ _ q48, wr_ne _ _ _ _ q49, wr_ne _ _ _ _ q50, wr_ne _ _ _ _ q51, wr_ne _ _ _ _ q52, wr_ne _ _ _ _ q53, wr_ne _ _ _ _ q54, wr_ne _ _ _ _ q55, wr_ne _ _ _ _ q56, wr_ne _ _ _ _ q57, wr_ne _ _ _ _ q58, wr_ne _ _ _ _ q59, wr_ne _ _ _ _ q60, wr_ne _ _ _ _ q61]
  · simp only [wr_same, wr_ne _ _ _ _ q23, wr_ne _ _ _ _ q24, wr_ne _ _ _ _ q25, wr_ne _ _ _ _ q26, wr_ne _ _ _ _ q27, wr_ne _ _ _ _ d0a, wr_ne _ _ _ _ d0b, wr_ne _ _ _ _ d1c, wr_ne _ _ _ _ q38, wr_ne _ _ _ _ q39, wr_ne _ _ _ _ q40, wr_ne _ _ _ _ q41, wr_ne _ _ _ _ q42, wr_ne _ _ _ _ q43, wr_ne _ _ _ _ q44, wr_ne _ _ _ _ q45, wr_ne _ _ _ _ q46, wr_ne _ _ _ _ q47, wr_ne _ _ _ _ q48, wr_ne _ _ _ _ q49, wr_ne _ _ _ _ q50, wr_ne _ _ _ _ q51, wr_ne _ _ _ _ q52, wr_ne _ _ _ _ q53, wr_ne _ _ _ _ q54, wr_ne _ _ _ _ q55, wr_ne _ _ _ _ q56, wr_ne _ _ _ _ q57, wr_ne _ _ _ _ q58, wr_ne _ _ _ _ q59, wr_ne _ _ _ _ q60, wr_ne _ _ _ _ q61]
  · simp only [wr_same, wr_ne _ _ _ _ q23, wr_ne _ _ _ _ q24, wr_ne _ _ _ _ q25, wr_ne _ _ _ _ q26, wr_ne _ _ _ _ q27, wr_ne _ _ _ _ d0a, wr_ne _ _ _ _ d0b, wr_ne _ _ _ _ d1c, wr_ne _ _ _ _ q38, wr_ne _ _ _ _ q39, wr_ne _ _ _ _ q40, wr_ne _ _ _ _ q41, wr_ne _ _ _ _ q42, wr_ne _ _ _ _ q43, wr_ne _ _ _ _ q44, wr_ne _ _ _ _ q45, wr_ne _ _ _ _ q46, wr_ne _ _ _ _ q47, wr_ne _ _ _ _ q48, wr_ne _ _ _ _ q49, wr_ne _ _ _ _ q50, wr_ne _ _ _ _ q51, wr_ne _ _ _ _ q52, wr_ne _ _ _ _ q53, wr_ne _ _ _ _ q54, wr_ne _ _ _ _ q55, wr_ne _ _ _ _ q56, wr_ne _ _ _ _ q57, wr_ne _ _ _ _ q58, wr_ne _ _ _ _ q59, wr_ne _ _ _ _ q60, wr_ne _ _ _ _ q61]

/-! ## Claim theorems -/

/-- C5 counterexample: a `push` line with four tokens parses successfully
(the extra token is ignored), instead of failing with a returned
MalformedOperand error as the claim requires; and a missing or non-numeric
numeric field crashes (out-of-bounds index / failed `unwrap`) rather than
returning an error value. -/
theorem claim_C5_counterexample :
    VMCommand.new "push local 3 junk" = .ok (.CPush "local" 3) ∧
    VMCommand.new "push local" = .panics ∧
    VMCommand.new "push local x" = .panics ∧
    VMCommand.new "push constant 70000" = .panics := by
  refine ⟨by decide, by decide, by decide, by decide⟩

/-- C5 (amended): for a line whose first token is push, pop, function or
call, the parser uses only the second and third tokens and ignores any
further ones; if the third token parses as a 16-bit integer (optional `+`,
all digits, below `2^16`) the command is produced, otherwise the parser
panics; and with fewer than three tokens it panics from out-of-bounds
indexing.  No error value is ever returned for these shapes. -/
theorem claim_C5 (seg numTok : String) (rest : List String) :
    (VMCommand.newFromTokens ("push" :: seg :: numTok :: rest) =
      match parseU16 (strTrim numTok) with
      | some k => .ok (.CPush (strTrim seg) k)
      | none => .panics) ∧
    (VMCommand.newFromTokens ("pop" :: seg :: numTok :: rest) =
      match parseU16 (strTrim numTok) with
      | some k => .ok (.CPop (strTrim seg) k)
      | none => .panics) ∧
    (VMCommand.newFromTokens ("function" :: seg :: numTok :: rest) =
      match parseU16 (strTrim numTok) with
      | some k => .ok (.CFunction (strTrim seg) k)
      | none => .panics) ∧
    (VMCommand.newFromTokens ("call" :: seg :: numTok :: rest) =
      match parseU16 (strTrim numTok) with
      | some k => .ok (.CCall (strTrim seg) k)
      | none => .panics) ∧
    (∀ w, w ∈ ["push", "pop", "function", "call"] →
      VMCommand.newFromTokens [w] = .panics ∧
      VMCommand.newFromTokens [w, seg] = .panics) := by
  refine ⟨?_, ?_, ?_, ?_, ?_⟩
  · cases hp : parseU16 (strTrim numTok) <;>
      simp [VMCommand.newFromTokens, tokAt, parseTok, Outcome.bind, hp]
  · cases hp : parseU16 (strTrim numTok) <;>
      simp [VMCommand.newFromTokens, tokAt, parseTok, Outcome.bind, hp]
  · cases hp : parseU16 (strTrim numTok) <;>
      simp [VMCommand.newFromTokens, tokAt, parseTok, Outcome.bind, hp]
  · cases hp : parseU16 (strTrim numTok) <;>
      simp [VMCommand.newFromTokens, tokAt, parseTok, Outcome.bind, hp]
  · intro w hw
    simp only [List.mem_cons, List.mem_singleton] at hw
    rcases hw with rfl | rfl | rfl | rfl | h
    · exact ⟨by simp [VMCommand.newFromTokens, tokAt, Outcome.bind],
        by simp [VMCommand.newFromTokens, tokAt, Outcome.bind]⟩
    · exact ⟨by simp [VMCommand.newFromTokens, tokAt, Outcome.bind],
        by simp [VMCommand.newFromTokens, tokAt, Outcome.bind]⟩
    · exact ⟨by simp [VMCommand.newFromTokens, tokAt, Outcome.bind],
        by simp [VMCommand.newFromTokens, tokAt, Outcome.bind]⟩
    · exact ⟨by simp [VMCommand.newFromTokens, tokAt, Outcome.bind],
        by simp [VMCommand.newFromTokens, tokAt, Outcome.bind]⟩
    · simp at h

/-- C5 witness: the amended parser behavior at a concrete pop line. -/
theorem claim_C5_witness :
    ("pop" ∈ ["push", "pop", "function", "call"]) ∧
    (VMCommand.newFromTokens ["pop"] = .panics ∧
      VMCommand.newFromTokens ["pop", "local"] = .panics) :=
  ⟨by decide, (claim_C5 "local" "3" ["x"]).2.2.2.2 "pop" (by decide)⟩

/-- C6: generating code for `pop constant idx` is rejected with the
`unimplemented mem_seg` error (the `UnrecognizedSegment` class of this
implementation), and push or pop of any segment outside the eight supported
ones likewise returns that error. -/
theorem claim_C6 :
    (∀ (idx : Nat) (sn : String),
      VMCommand.cpop2asm "constant" idx sn =
        .error "unimplemented mem_seg: constant") ∧
    (∀ (seg : String) (idx : Nat) (sn : String),
      ¬ seg ∈ ["constant", "local", "argument", "this", "that", "pointer",
        "temp", "static"] →
      VMCommand.cpop2asm seg idx sn = .error ("unimplemented mem_seg: " ++ seg) ∧
      VMCommand.cpush2asm seg idx sn = .error ("unimplemented mem_seg: " ++ seg)) := by
  constructor
  · intro idx sn
    simp [VMCommand.cpop2asm, get_mem_seg, Bind.bind, Except.bind]
  · intro seg idx sn h
    simp only [List.mem_cons, List.mem_singleton, not_or] at h
    obtain ⟨hc, hl, ha, ht1, ht2, hp, htm, hs⟩ := h
    constructor
    · simp [VMCommand.cpop2asm, get_mem_seg, Bind.bind, Except.bind,
        hc, hl, ha, ht1, ht2, hp, htm, hs]
    · simp [VMCommand.cpush2asm, get_mem_seg, Bind.bind, Except.bind,
        hc, hl, ha, ht1, ht2, hp, htm, hs]

/-- C6 witness: `pop constant 3` and push/pop of an unknown segment at a
concrete input. -/
theorem claim_C6_witness :
    (VMCommand.cpop2asm "constant" 3 "Foo" =
      .error "unimplemented mem_seg: constant") ∧
    (¬ "banana" ∈ ["constant", "local", "argument", "this", "that", "pointer",
      "temp", "static"]) ∧
    (VMCommand.cpop2asm "banana" 3 "Foo" =
        .error ("unimplemented mem_seg: " ++ "banana") ∧
      VMCommand.cpush2asm "banana" 3 "Foo" =
        .error ("unimplemented mem_seg: " ++ "banana")) :=
  ⟨claim_C6.1 3 "Foo", by decide, claim_C6.2 "banana" 3 "Foo" (by decide)⟩

/-- C9 counterexample: a line holding only whitespace before a comment (or
only whitespace) is not ignored: the slice before `//` has nonzero length,
is parsed, and the whole translation fails with an `unimplemented vm
command type` error, contrary to the claim that such lines contribute no
error. -/
theorem claim_C9_counterexample :
    translate_vm [" // hi"] "F" 0 = .err "unimplemented vm command type: " ∧
    translate_vm ["   "] "F" 0 = .err "unimplemented vm command type: " := by
  refine ⟨by decide, by decide⟩

/-- C9 (amended): the text from the first `//` on is stripped before
parsing; a line is ignored — no command, no assembly, no error — exactly
when the remaining prefix is empty (so empty lines and lines starting with
`//` are ignored, but whitespace-only prefixes are parsed and fail). -/
theorem claim_C9 (line : String) (rest : List String) (sn fn : String)
    (jc : Nat) (acc : String) :
    ((takeUntilComment line.data).length = 0 →
      translateLoop sn (line :: rest) fn jc acc =
        translateLoop sn rest fn jc acc) ∧
    ((takeUntilComment ("push local 1 // hi".data)).asString = "push local 1 " ∧
      VMCommand.new "push local 1 " = .ok (.CPush "local" 1)) ∧
    (translate_vm ["", "// only a comment"] sn jc = .ok ("", jc)) := by
  refine ⟨?_, ⟨by decide, by decide⟩, ?_⟩
  · intro h
    rw [translateLoop]
    simp [h]
  · show translateLoop sn ["", "// only a comment"] "System" jc "" = .ok ("", jc)
    simp [translateLoop, takeUntilComment]

/-- C9 witness: a comment-only line is skipped by the loop. -/
theorem claim_C9_witness :
    ((takeUntilComment ("// x".data)).length = 0) ∧
    translateLoop "F" ["// x"] "System" 0 "" =
      translateLoop "F" [] "System" 0 "" :=
  ⟨by decide, (claim_C9 "// x" [] "F" "System" 0 "").1 (by decide)⟩

/-- C10: `push pointer idx` and `pop pointer idx` for any idx other than 0
and 1 fall through to the segment lookup and fail with the
`unimplemented mem_seg: pointer` error instead of emitting assembly. -/
theorem claim_C10 (idx : Nat) (sn : String) (h0 : ¬ idx = 0) (h1 : ¬ idx = 1) :
    VMCommand.cpush2asm "pointer" idx sn =
      .error "unimplemented mem_seg: pointer" ∧
    VMCommand.cpop2asm "pointer" idx sn =
      .error "unimplemented mem_seg: pointer" := by
  constructor
  · simp [VMCommand.cpush2asm, get_mem_seg, Bind.bind, Except.bind, h0, h1]
  · simp [VMCommand.cpop2asm, get_mem_seg, Bind.bind, Except.bind, h0, h1]

/-- C10 witness: `pointer 2` is rejected for both push and pop. -/
theorem claim_C10_witness :
    (¬ (2 : Nat) = 0) ∧ (¬ (2 : Nat) = 1) ∧
    (VMCommand.cpush2asm "pointer" 2 "Foo" =
        .error "unimplemented mem_seg: pointer" ∧
      VMCommand.cpop2asm "pointer" 2 "Foo" =
        .error "unimplemented mem_seg: pointer") :=
  ⟨by decide, by decide, claim_C10 2 "Foo" (by decide) (by decide)⟩

theorem str_append_assoc (a b c : String) : a ++ b ++ c = a ++ (b ++ c) := by
  apply String.ext
  simp [String.data_append, List.append_assoc]

/-- C8: a `function name localCount` command leaves the jump counter
unchanged and emits the rendering of `cfunctionInstrs`, which begins with
the unqualified entry marker `(name)`; with zero locals nothing further is
emitted, and with a positive count the local-zeroing loop follows, whose
repeat label is `name_rep` — derived from the function name, never from the
jump counter (the emitted text is the same for every counter value). -/
theorem claim_C8 (name : String) (nv : Nat) (sn fn : String) :
    (∀ jc : Nat, VMCommand.to_asm (.CFunction name nv) jc sn fn =
      .ok (jc, render (cfunctionInstrs name nv))) ∧
    cfunctionInstrs name 0 = [.lbl name] ∧
    (0 < nv → cfunctionInstrs name nv =
      [.lbl name, .at_num nv, .dEqA, .lbl (name ++ "_rep"),
       .at_sym "SP", .amEqMplus1, .aEqAsub1, .mEqZero,
       .at_sym (name ++ "_rep"), .dEqDsub1JGT]) ∧
    labelDefs (cfunctionInstrs name nv) =
      (if nv = 0 then [name] else [name, name ++ "_rep"]) := by
  refine ⟨?_, ?_, ?_, ?_⟩
  · intro jc
    simp [VMCommand.to_asm, render_cfunction, Bind.bind, Except.bind, pure,
      Except.pure]
  · simp [cfunctionInstrs]
  · intro h
    rw [cfunctionInstrs, if_neg (Nat.pos_iff_ne_zero.mp h)]
  · by_cases h : nv = 0 <;> simp [cfunctionInstrs, labelDefs, h]

/-- C8 witness: `function Foo 3` produces the entry marker followed by the
zeroing loop labelled `Foo_rep`. -/
theorem claim_C8_witness :
    (0 < 3) ∧ cfunctionInstrs "Foo" 3 =
      [.lbl "Foo", .at_num 3, .dEqA, .lbl ("Foo" ++ "_rep"),
       .at_sym "SP", .amEqMplus1, .aEqAsub1, .mEqZero,
       .at_sym ("Foo" ++ "_rep"), .dEqDsub1JGT] :=
  ⟨by decide, (claim_C8 "Foo" 3 "S" "F").2.2.1 (by decide)⟩

/-- C2: each comparison emits exactly one fresh `JMP_FALSE<jumpCounter>`
label and advances the counter by one; each call emits exactly one
`name$ret.<jumpCounter>` label and advances the counter by one; the counter
returned by `to_asm` always agrees with `ctrNext` and never decreases; and
over any command sequence of one translation the conditional-jump labels
are pairwise distinct and distinct from every return label. -/
theorem claim_C2 :
    (∀ jc, VMCommand.carithmetic2asm "eq" jc =
      .ok (jc + 1, render (cmpInstrs .dJEQ jc))) ∧
    (∀ jc, VMCommand.carithmetic2asm "gt" jc =
      .ok (jc + 1, render (cmpInstrs .dJGT jc))) ∧
    (∀ jc, VMCommand.carithmetic2asm "lt" jc =
      .ok (jc + 1, render (cmpInstrs .dJLT jc))) ∧
    (∀ opI, opI ∈ ([.dJEQ, .dJGT, .dJLT] : List Instr) → ∀ jc,
      labelDefs (cmpInstrs opI jc) = ["JMP_FALSE" ++ Nat.repr jc]) ∧
    (∀ (f : String) (n jc : Nat),
      VMCommand.ccall2asm f n jc = .ok (jc + 1, render (ccallInstrs f n jc)) ∧
      labelDefs (ccallInstrs f n jc) = [f ++ "$ret." ++ Nat.repr jc]) ∧
    (∀ (c : VMCommand) (jc : Nat) (sn fn : String) (j : Nat) (s : String),
      VMCommand.to_asm c jc sn fn = .ok (j, s) → j = ctrNext c jc) ∧
    (∀ (c : VMCommand) (jc : Nat), jc ≤ ctrNext c jc) ∧
    (∀ (cs : List VMCommand) (jc : Nat), jc ≤ ctrAfter cs jc) ∧
    (∀ (cs : List VMCommand) (jc : Nat), (jmpLabels cs jc).Pairwise (· ≠ ·)) ∧
    (∀ (cs : List VMCommand) (jc : Nat) (l r : String),
      l ∈ jmpLabels cs jc → r ∈ retLabels cs jc → l ≠ r) := by
  refine ⟨render_cmp_eq, render_cmp_gt, render_cmp_lt, ?_, ?_, to_asm_ctr,
    ctrNext_ge, ctrAfter_ge, jmpLabels_pairwise, ?_⟩
  · intro opI h jc
    simp only [List.mem_cons, List.not_mem_nil, or_false] at h
    rcases h with rfl | rfl | rfl <;> rfl
  · intro f n jc
    exact ⟨render_ccall f n jc, rfl⟩
  · intro cs jc l r hl hr
    obtain ⟨i, _, _, rfl⟩ := jmpLabels_mem cs jc l hl
    obtain ⟨i2, g, _, _, rfl⟩ := retLabels_mem cs jc r hr
    exact jmp_ne_ret i i2 g

/-- C2 witness: in the two-command translation `eq; call Sys.init 0`, the
comparison label is distinct from the return label. -/
theorem claim_C2_witness :
    ("JMP_FALSE" ++ Nat.repr 0 ∈
      jmpLabels [.CArithmetic "eq" 0, .CCall "Sys.init" 0] 0) ∧
    ("Sys.init" ++ "$ret." ++ Nat.repr 1 ∈
      retLabels [.CArithmetic "eq" 0, .CCall "Sys.init" 0] 0) ∧
    ("JMP_FALSE" ++ Nat.repr 0 ≠ "Sys.init" ++ "$ret." ++ Nat.repr 1) :=
  ⟨by decide, by decide,
    claim_C2.2.2.2.2.2.2.2.2.2 [.CArithmetic "eq" 0, .CCall "Sys.init" 0] 0
      _ _ (by decide) (by decide)⟩

/-- C7: a unit translation binds the unit's static name, starts its fold at
the default scope name `System`, and the orchestrator threads the jump
counter: the counter a prefix of units ends with is the counter the
remaining units start from, with outputs concatenated in order. -/
theorem claim_C7 :
    (∀ (lines : List String) (sn : String) (jc : Nat),
      translate_vm lines sn jc = translateLoop sn lines "System" jc "") ∧
    (∀ (u : SourceUnit) (rest : List SourceUnit) (jc : Nat),
      runUnits (u :: rest) jc =
        Outcome.bind (translate_vm u.lines u.static_name jc) fun r =>
        Outcome.bind (runUnits rest r.2) fun r2 => .ok (r.1 ++ r2.1, r2.2)) ∧
    (∀ (us vs : List SourceUnit) (jc : Nat) (s : String) (j : Nat),
      runUnits us jc = .ok (s, j) →
      runUnits (us ++ vs) jc =
        Outcome.bind (runUnits vs j) fun r2 => .ok (s ++ r2.1, r2.2)) := by
  refine ⟨fun _ _ _ => rfl, fun _ _ _ => rfl, ?_⟩
  intro us vs
  induction us with
  | nil =>
    intro jc s j h
    rw [runUnits] at h
    simp only [Outcome.ok.injEq, Prod.mk.injEq] at h
    obtain ⟨rfl, rfl⟩ := h
    rw [List.nil_append]
    cases hv : runUnits vs jc with
    | ok r => simp [Outcome.bind]
    | err e => simp [Outcome.bind]
    | panics => simp [Outcome.bind]
  | cons u us ih =>
    intro jc s j h
    rw [runUnits] at h
    cases ht : translate_vm u.lines u.static_name jc with
    | err e => rw [ht] at h; simp [Outcome.bind] at h
    | panics => rw [ht] at h; simp [Outcome.bind] at h
    | ok r =>
      rw [ht] at h
      simp only [Outcome.bind] at h
      cases hu : runUnits us r.2 with
      | err e => rw [hu] at h; simp at h
      | panics => rw [hu] at h; simp at h
      | ok r2 =>
        rw [hu] at h
        simp only [Outcome.ok.injEq, Prod.mk.injEq] at h
        obtain ⟨rfl, rfl⟩ := h
        rw [List.cons_append, runUnits, ht]
        simp only [Outcome.bind]
        rw [ih r.2 r2.1 r2.2 hu]
        cases hv : runUnits vs r2.2 with
        | ok q => simp [Outcome.bind, str_append_assoc]
        | err e => simp [Outcome.bind]
        | panics => simp [Outcome.bind]

/-- C7 witness: the counter after the first unit (0 pushes, 0 calls) feeds
the second unit. -/
theorem claim_C7_witness :
    (runUnits [⟨["push constant 1"], "A"⟩] 0 =
      .ok ("@1\nD=A\n@SP\nAM=M+1\nA=A-1\nM=D\n", 0)) ∧
    runUnits ([⟨["push constant 1"], "A"⟩] ++ [⟨["eq"], "B"⟩]) 0 =
      Outcome.bind (runUnits [⟨["eq"], "B"⟩] 0) fun r2 =>
        .ok ("@1\nD=A\n@SP\nAM=M+1\nA=A-1\nM=D\n" ++ r2.1, r2.2) :=
  ⟨by decide,
    claim_C7.2.2 [⟨["push constant 1"], "A"⟩] [⟨["eq"], "B"⟩] 0
      "@1\nD=A\n@SP\nAM=M+1\nA=A-1\nM=D\n" 0 (by decide)⟩

/-- C1: the bootstrap fragment does set the stack pointer to 256, emit
`call Sys.init 0`, and precede every unit's output; but `main` discards the
counter `bootstrap` returns (and `bootstrap` passes the literal 0 to
`ccall2asm`), so the first unit's code generation starts again from 0 —
not one greater — and a first unit containing `call Sys.init 0` emits the
very same return label a second time: the output defines
`(Sys.init$ret.0)` twice.  This evaluates the code at the failing input. -/
theorem claim_C1 :
    (bootstrap 0).2 = 1 ∧
    (∀ (units : List SourceUnit) (s : String) (j : Nat),
      runUnits units 0 = .ok (s, j) →
      mainOutput units true = .ok ((bootstrap 0).1 ++ s)) ∧
    outcomeCtr (translate_vm ["call Sys.init 0"] "Sys" 0) = 1 ∧
    ((splitOnNl (outcomeStr
        (mainOutput [⟨["call Sys.init 0"], "Sys"⟩] true)).data).count
      ("(Sys.init$ret.0)".data)) = 2 := by
  refine ⟨rfl, ?_, by decide, by decide⟩
  intro units s j h
  simp [mainOutput, h, Outcome.bind]

/-- C1 witness: the orchestration conjunct at a concrete one-unit program. -/
theorem claim_C1_witness :
    (runUnits [⟨["eq"], "B"⟩] 0 =
      .ok ("@R15\nM=-1\n@SP\nAM=M-1\nD=M\nA=A-1\nD=M-D\n@JMP_FALSE0\nD;JEQ\n@R15\nM=0\n(JMP_FALSE0)\n@R15\nD=M\n@SP\nA=M-1\nM=D\n", 1)) ∧
    mainOutput [⟨["eq"], "B"⟩] true =
      .ok ((bootstrap 0).1 ++
        "@R15\nM=-1\n@SP\nAM=M-1\nD=M\nA=A-1\nD=M-D\n@JMP_FALSE0\nD;JEQ\n@R15\nM=0\n(JMP_FALSE0)\n@R15\nD=M\n@SP\nA=M-1\nM=D\n") :=
  ⟨by decide,
    claim_C1.2.1 [⟨["eq"], "B"⟩]
      "@R15\nM=-1\n@SP\nAM=M-1\nD=M\nA=A-1\nD=M-D\n@JMP_FALSE0\nD;JEQ\n@R15\nM=0\n(JMP_FALSE0)\n@R15\nD=M\n@SP\nA=M-1\nM=D\n" 1 (by decide)⟩

/-- C4: a `Return` command leaves the jump counter and the current function
name unchanged and emits exactly the rendering of `creturnInstrs`; executing
that fragment on a machine whose frame is laid out at the callee's local
base `l` restores THAT/THIS/ARG/LCL from `l-1`..`l-4`, sets the stack
pointer to the caller argument base plus one, stores the callee's top of
stack (the return value) at the caller's restored stack top, and jumps
through the return address saved at `l-5`. -/
theorem claim_C4 (σ : String → Nat) (s0 : Mach)
    (l a sp rv tTHAT tTHIS tARG tLCL retA : Nat)
    (rs sn fn : String) (rn jc : Nat)
    (hSP : σ "SP" = 0) (hLCL : σ "LCL" = 1) (hARG : σ "ARG" = 2)
    (hTHIS : σ "THIS" = 3) (hTHAT : σ "THAT" = 4)
    (hR13 : σ "R13" = 13) (hR14 : σ "R14" = 14)
    (hm0 : s0.mem 0 = sp) (hm1 : s0.mem 1 = l) (hm2 : s0.mem 2 = a)
    (hf1 : s0.mem (l - 1) = tTHAT) (hf2 : s0.mem (l - 2) = tTHIS)
    (hf3 : s0.mem (l - 3) = tARG) (hf4 : s0.mem (l - 4) = tLCL)
    (hf5 : s0.mem (l - 5) = retA) (htop : s0.mem (sp - 1) = rv)
    (hl : 20 ≤ l) (hlhi : l < 65536) (ha : 15 ≤ a) (hal : a + 5 ≤ l)
    (hsp : l < sp) (hsphi : sp < 65536) :
    (VMCommand.to_asm (.CReturn rs rn) jc sn fn =
      .ok (jc, render creturnInstrs)) ∧
    nextFuncName (.CReturn rs rn) fn = fn ∧
    VMCommand.creturn2asm = .ok (render creturnInstrs) ∧
    (runStraight σ creturnInstrs s0).2 = some retA ∧
    (runStraight σ creturnInstrs s0).1.mem 4 = tTHAT ∧
    (runStraight σ creturnInstrs s0).1.mem 3 = tTHIS ∧
    (runStraight σ creturnInstrs s0).1.mem 2 = tARG ∧
    (runStraight σ creturnInstrs s0).1.mem 1 = tLCL ∧
    (runStraight σ creturnInstrs s0).1.mem 0 = a + 1 ∧
    (runStraight σ creturnInstrs s0).1.mem a = rv := by
  have hx := creturn_exec σ s0 l a sp rv tTHAT tTHIS tARG tLCL retA
    hSP hLCL hARG hTHIS hTHAT hR13 hR14 hm0 hm1 hm2 hf1 hf2 hf3 hf4 hf5 htop
    hl hlhi ha hal hsp hsphi
  have ap : ¬ (a = 1) ∧ ¬ (a = 13) ∧ ¬ (a = 2) ∧ ¬ (a = 3) ∧ ¬ (a = 4) ∧
      ¬ (a = 0) := by omega
  obtain ⟨a1, a13, a2, a3, a4, a0⟩ := ap
  have d41 : ¬ ((4 : Nat) = 1) := by decide
  have d413 : ¬ ((4 : Nat) = 13) := by decide
  have d42 : ¬ ((4 : Nat) = 2) := by decide
  have d43 : ¬ ((4 : Nat) = 3) := by decide
  have d31 : ¬ ((3 : Nat) = 1) := by decide
  have d313 : ¬ ((3 : Nat) = 13) := by decide
  have d32 : ¬ ((3 : Nat) = 2) := by decide
  have d21 : ¬ ((2 : Nat) = 1) := by decide
  have d213 : ¬ ((2 : Nat) = 13) := by decide
  have d01 : ¬ ((0 : Nat) = 1) := by decide
  have d013 : ¬ ((0 : Nat) = 13) := by decide
  have d02 : ¬ ((0 : Nat) = 2) := by decide
  have d03 : ¬ ((0 : Nat) = 3) := by decide
  have d04 : ¬ ((0 : Nat) = 4) := by decide
  refine ⟨?_, rfl, render_creturn, ?_, ?_, ?_, ?_, ?_, ?_, ?_⟩
  · simp [VMCommand.to_asm, render_creturn, Bind.bind, Except.bind, pure,
      Except.pure]
  · rw [hx]
  · rw [hx]
    simp only [wr_same, wr_ne _ _ _ _ d41, wr_ne _ _ _ _ d413,
      wr_ne _ _ _ _ d42, wr_ne _ _ _ _ d43]
  · rw [hx]
    simp only [wr_same, wr_ne _ _ _ _ d31, wr_ne _ _ _ _ d313,
      wr_ne _ _ _ _ d32]
  · rw [hx]
    simp only [wr_same, wr_ne _ _ _ _ d21, wr_ne _ _ _ _ d213]
  · rw [hx]
    simp only [wr_same]
  · rw [hx]
    simp only [wr_same, wr_ne _ _ _ _ d01, wr_ne _ _ _ _ d013,
      wr_ne _ _ _ _ d02, wr_ne _ _ _ _ d03, wr_ne _ _ _ _ d04]
  · rw [hx]
    simp only [wr_same, wr_ne _ _ _ _ a1, wr_ne _ _ _ _ a13,
      wr_ne _ _ _ _ a2, wr_ne _ _ _ _ a3, wr_ne _ _ _ _ a4,
      wr_ne _ _ _ _ a0]

/-- C4 witness: `Return` executed on a concrete frame (local base 30,
argument base 20, stack pointer 40). -/
theorem claim_C4_witness :
    (20 ≤ 30 ∧ 15 ≤ 20 ∧ 30 < 40 ∧ mach0.mem (30 - 5) = 225) ∧
    ((VMCommand.to_asm (.CReturn "return" 0) 7 "S" "F" =
        .ok (7, render creturnInstrs)) ∧
      nextFuncName (.CReturn "return" 0) "F" = "F" ∧
      VMCommand.creturn2asm = .ok (render creturnInstrs) ∧
      (runStraight sigma0 creturnInstrs mach0).2 = some 225 ∧
      (runStraight sigma0 creturnInstrs mach0).1.mem 4 = 229 ∧
      (runStraight sigma0 creturnInstrs mach0).1.mem 3 = 228 ∧
      (runStraight sigma0 creturnInstrs mach0).1.mem 2 = 227 ∧
      (runStraight sigma0 creturnInstrs mach0).1.mem 1 = 226 ∧
      (runStraight sigma0 creturnInstrs mach0).1.mem 0 = 20 + 1 ∧
      (runStraight sigma0 creturnInstrs mach0).1.mem 20 = 239) :=
  ⟨⟨by decide, by decide, by decide, by decide⟩,
    claim_C4 sigma0 mach0 30 20 40 239 229 228 227 226 225 "return" "S" "F" 0 7
      (by decide) (by decide) (by decide) (by decide) (by decide) (by decide)
      (by decide) (by decide) (by decide) (by decide) (by decide) (by decide)
      (by decide) (by decide) (by decide) (by decide) (by decide) (by decide)
      (by decide) (by decide) (by decide) (by decide)⟩

/-- C3: a `Call(name, argCount)` command advances the jump counter by one
and emits exactly the rendering of `ccallInstrs`, whose only defined label
is the fresh return label placed immediately after the unconditional jump
to `name`; executing the fragment pushes, in order, the return label's
address, the LCL, ARG, THIS and THAT values, then sets the local base to
the new stack pointer and the argument base to stackPointer - 5 - argCount,
and reports the jump target `name`. -/
theorem claim_C3 (σ : String → Nat) (s0 : Mach) (f : String)
    (n jc sp valL valA valT valTT : Nat)
    (hSP : σ "SP" = 0) (hLCL : σ "LCL" = 1) (hARG : σ "ARG" = 2)
    (hTHIS : σ "THIS" = 3) (hTHAT : σ "THAT" = 4)
    (hm0 : s0.mem 0 = sp) (hv1 : s0.mem 1 = valL) (hv2 : s0.mem 2 = valA)
    (hv3 : s0.mem 3 = valT) (hv4 : s0.mem 4 = valTT)
    (h16 : 16 ≤ sp) (hhi : sp + 5 < 65536) (hn : n ≤ sp) :
    VMCommand.ccall2asm f n jc = .ok (jc + 1, render (ccallInstrs f n jc)) ∧
    labelDefs (ccallInstrs f n jc) = [f ++ "$ret." ++ Nat.repr jc] ∧
    (ccallInstrs f n jc).drop 40 =
      [.at_sym f, .jmp, .lbl (f ++ "$ret." ++ Nat.repr jc)] ∧
    (runStraight σ (ccallInstrs f n jc) s0).2 = some (σ f) ∧
    (runStraight σ (ccallInstrs f n jc) s0).1.mem sp =
      σ (f ++ "$ret." ++ Nat.repr jc) ∧
    (runStraight σ (ccallInstrs f n jc) s0).1.mem (sp + 1) = valL ∧
    (runStraight σ (ccallInstrs f n jc) s0).1.mem (sp + 2) = valA ∧
    (runStraight σ (ccallInstrs f n jc) s0).1.mem (sp + 3) = valT ∧
    (runStraight σ (ccallInstrs f n jc) s0).1.mem (sp + 4) = valTT ∧
    (runStraight σ (ccallInstrs f n jc) s0).1.mem 0 = sp + 5 ∧
    (runStraight σ (ccallInstrs f n jc) s0).1.mem 1 = sp + 5 ∧
    (runStraight σ (ccallInstrs f n jc) s0).1.mem 2 = sp + 5 - 5 - n := by
  obtain ⟨hrun, p1, p2, p3, p4, p5, p6, p7, p8⟩ :=
    ccall_exec σ s0 f n jc sp valL valA valT valTT
      hSP hLCL hARG hTHIS hTHAT hm0 hv1 hv2 hv3 hv4 h16 hhi hn
  refine ⟨render_ccall f n jc, rfl, rfl, ?_, ?_, ?_, ?_, ?_, ?_, ?_, ?_, ?_⟩
  · rw [hrun]
  · rw [hrun]; exact p1
  · rw [hrun]; exact p2
  · rw [hrun]; exact p3
  · rw [hrun]; exact p4
  · rw [hrun]; exact p5
  · rw [hrun]; exact p6
  · rw [hrun]; exact p7
  · rw [hrun]
    rw [show sp + 5 - 5 - n = sp - n from by rw [Nat.add_sub_cancel]]
    exact p8

/-- C3 witness: `call Foo 2` executed at jump counter 5 from stack
pointer 100. -/
theorem claim_C3_witness :
    (16 ≤ 100 ∧ 100 + 5 < 65536 ∧ 2 ≤ 100) ∧
    (VMCommand.ccall2asm "Foo" 2 5 =
        .ok (5 + 1, render (ccallInstrs "Foo" 2 5)) ∧
      labelDefs (ccallInstrs "Foo" 2 5) = ["Foo" ++ "$ret." ++ Nat.repr 5] ∧
      (ccallInstrs "Foo" 2 5).drop 40 =
        [.at_sym "Foo", .jmp, .lbl ("Foo" ++ "$ret." ++ Nat.repr 5)] ∧
      (runStraight sigma0 (ccallInstrs "Foo" 2 5) mach1).2 =
        some (sigma0 "Foo") ∧
      (runStraight sigma0 (ccallInstrs "Foo" 2 5) mach1).1.mem 100 =
        sigma0 ("Foo" ++ "$ret." ++ Nat.repr 5) ∧
      (runStraight sigma0 (ccallInstrs "Foo" 2 5) mach1).1.mem (100 + 1) = 301 ∧
      (runStraight sigma0 (ccallInstrs "Foo" 2 5) mach1).1.mem (100 + 2) = 302 ∧
      (runStraight sigma0 (ccallInstrs "Foo" 2 5) mach1).1.mem (100 + 3) = 303 ∧
      (runStraight sigma0 (ccallInstrs "Foo" 2 5) mach1).1.mem (100 + 4) = 304 ∧
      (runStraight sigma0 (ccallInstrs "Foo" 2 5) mach1).1.mem 0 = 100 + 5 ∧
      (runStraight sigma0 (ccallInstrs "Foo" 2 5) mach1).1.mem 1 = 100 + 5 ∧
      (runStraight sigma0 (ccallInstrs "Foo" 2 5) mach1).1.mem 2 =
        100 + 5 - 5 - 2) :=
  ⟨⟨by decide, by decide, by decide⟩,
    claim_C3 sigma0 mach1 "Foo" 2 5 100 301 302 303 304
      (by decide) (by decide) (by decide) (by decide) (by decide)
      (by decide) (by decide) (by decide) (by decide) (by decide)
      (by decide) (by decide) (by decide)⟩

end VMTrans
